import Mathlib

/-!
# wrapfs inode operations: a shallow embedding

The definitions below embed `src/5.13/inode.c` (the structural operations
`wrapfs_create` ... `wrapfs_rename`, `wrapfs_setattr` and the extended-attribute
operations) and the fault handlers of `src/5.11/mmap.c`.

Modelling conventions.

* A pointer is a natural number, `0` is `NULL`.  Objects live in two stores:
  the objects of the wrapfs superblock (`World.upper`, together with the wrapfs
  private data `lower_path`, `lower_inode`, `lower_file`) and the objects owned
  by the lower filesystem (`World.lower`).  `d_inode`, `d_unhashed` ... take the
  store in which the pointer is dereferenced.
* Kernel functions that are not part of the repository (`vfs_create`,
  `vfs_rename`, `notify_change`, `lock_rename`, ...) are fields of `Env`.  A
  lower primitive sees the lower store and its (pointer) arguments and returns
  a result code and the new lower store.
* Every call that matters for the protocol is appended to `World.trace`.
* `int` results are `Int`; `goto out` is a call of the local function `out`.
-/

namespace Wrapfs

abbrev Ptr := Nat

/-! ## Constants (Linux 5.13 headers) -/

def EBUSY : Int := 16
def EINVAL : Int := 22
def ENOTEMPTY : Int := 39
def EOPNOTSUPP : Int := 95

/-- The flag `DCACHE_NFSFS_RENAMED` of include/linux/dcache.h. -/
def DCACHE_NFSFS_RENAMED : Nat := 0x00001000

/-- The flag `ATTR_MODE` of include/linux/fs.h, bit 0. -/
def ATTR_MODE : Nat := 1
/-- The flag `ATTR_SIZE`, bit 3. -/
def ATTR_SIZE : Nat := 8
/-- The flag `ATTR_KILL_SUID`, bit 11. -/
def ATTR_KILL_SUID : Nat := 2048
/-- The flag `ATTR_KILL_SGID`, bit 12. -/
def ATTR_KILL_SGID : Nat := 4096
/-- The flag `ATTR_FILE`, bit 13. -/
def ATTR_FILE : Nat := 8192

/-- The value of `~ATTR_MODE` converted to `unsigned int` (the type of `ia_valid`). -/
def NOT_ATTR_MODE : Nat := 0xFFFFFFFE

/-! ## Data model -/

structure Timespec64 where
  tv_sec : Int
  tv_nsec : Int
deriving DecidableEq, Repr, Inhabited

/-- The fields of `struct inode` that the operations read or write. -/
structure Inode where
  i_mode : Nat
  i_opflags : Nat
  i_uid : Nat
  i_gid : Nat
  i_flags : Nat
  i_sb : Ptr
  i_rdev : Nat
  i_nlink : Nat
  i_size : Nat
  i_atime : Timespec64
  i_mtime : Timespec64
  i_ctime : Timespec64
  i_blkbits : Nat
  i_blocks : Nat
deriving DecidableEq, Repr, Inhabited

/-- The fields of `struct dentry` that the operations read or write;
`unhashed` is what `d_unhashed` reports. -/
structure Dentry where
  d_flags : Nat
  d_parent : Ptr
  d_inode : Ptr
  unhashed : Bool
deriving DecidableEq, Repr, Inhabited

structure Path where
  mnt : Ptr
  dentry : Ptr
deriving DecidableEq, Repr, Inhabited

structure Iattr where
  ia_valid : Nat
  ia_mode : Nat
  ia_uid : Nat
  ia_gid : Nat
  ia_size : Nat
  ia_atime : Timespec64
  ia_mtime : Timespec64
  ia_ctime : Timespec64
  ia_file : Ptr
deriving DecidableEq, Repr, Inhabited

structure Renamedata where
  old_dir : Ptr
  old_dentry : Ptr
  new_dir : Ptr
  new_dentry : Ptr
  flags : Nat
deriving DecidableEq, Repr, Inhabited

/-- The calls recorded in the trace, with their arguments. -/
inductive Event where
  | get_lower_path (dentry : Ptr) (lower_path : Path)
  | put_lower_path (dentry : Ptr) (lower_path : Path)
  | lock_parent (dentry : Ptr) (dir : Ptr)
  | unlock_dir (dir : Ptr)
  | dget (dentry : Ptr)
  | dget_parent (dentry : Ptr) (parent : Ptr)
  | dput (dentry : Ptr)
  | lock_rename (p1 : Ptr) (p2 : Ptr) (trap : Ptr)
  | unlock_rename (p1 : Ptr) (p2 : Ptr)
  | vfs_create (dir : Ptr) (dentry : Ptr) (mode : Nat) (want_excl : Bool)
  | vfs_link (old_dentry : Ptr) (dir : Ptr) (new_dentry : Ptr)
  | vfs_unlink (dir : Ptr) (dentry : Ptr)
  | vfs_symlink (dir : Ptr) (dentry : Ptr) (symname : String)
  | vfs_mkdir (dir : Ptr) (dentry : Ptr) (mode : Nat)
  | vfs_rmdir (dir : Ptr) (dentry : Ptr)
  | vfs_mknod (dir : Ptr) (dentry : Ptr) (mode : Nat) (dev : Nat)
  | vfs_rename (rd : Renamedata)
  | wrapfs_interpose (dentry : Ptr) (sb : Ptr) (lower_path : Path)
  | d_drop (dentry : Ptr)
  | truncate_setsize (inode : Ptr) (newsize : Nat)
  | inode_lock (inode : Ptr)
  | inode_unlock (inode : Ptr)
  | notify_change (dentry : Ptr) (attr : Iattr)
  | vfs_setxattr (dentry : Ptr) (name : String) (value : Ptr) (size : Nat) (flags : Int)
  | vfs_getxattr (dentry : Ptr) (name : String) (buffer : Ptr) (size : Nat)
  | vfs_listxattr (dentry : Ptr) (buffer : Ptr) (size : Nat)
  | vfs_removexattr (dentry : Ptr) (name : String)
deriving DecidableEq, Repr

/-- The inodes and dentries of one filesystem. -/
structure Store where
  inodes : Ptr → Inode
  dentries : Ptr → Dentry

/-- The objects of the wrapfs superblock with the wrapfs private data:
`WRAPFS_D(dentry)->lower_path`, `WRAPFS_I(inode)->lower_inode`,
`WRAPFS_F(file)->lower_file`. -/
structure Shadow where
  inodes : Ptr → Inode
  dentries : Ptr → Dentry
  lower_path : Ptr → Path
  lower_inode : Ptr → Ptr
  lower_file : Ptr → Ptr

structure World where
  upper : Shadow
  lower : Store
  trace : List Event

/-- The kernel and the lower filesystem, as far as the operations call them.
`lock_wait` is what other tasks do to the lower filesystem while the caller
waits for a directory lock; `lock_rename` is the trap that `lock_rename`
returns.  `wrapfs_interpose` is defined in lookup.c, which is not among the sources, and
is a parameter: it creates or reuses the shadow node of the resolved lower target and
attaches it to the entry, so it changes objects of the wrapfs superblock only, or fails
with an error. -/
structure Env where
  lock_wait : Store → Store
  lock_rename : Store → Ptr → Ptr → Ptr
  vfs_create : Store → Ptr → Ptr → Nat → Bool → Int × Store
  vfs_link : Store → Ptr → Ptr → Ptr → Int × Store
  vfs_unlink : Store → Ptr → Ptr → Int × Store
  vfs_symlink : Store → Ptr → Ptr → String → Int × Store
  vfs_mkdir : Store → Ptr → Ptr → Nat → Int × Store
  vfs_rmdir : Store → Ptr → Ptr → Int × Store
  vfs_mknod : Store → Ptr → Ptr → Nat → Nat → Int × Store
  vfs_rename : Store → Renamedata → Int × Store
  wrapfs_interpose : Shadow → Store → Ptr → Ptr → Path → Int × Shadow
  setattr_prepare : Shadow → Ptr → Iattr → Int
  inode_newsize_ok : Inode → Nat → Int
  notify_change : Store → Ptr → Iattr → Int × Store

/-! ## Helpers of the kernel and of wrapfs.h -/

/-- Pointwise update of a store component. -/
def upd {α : Type} (f : Ptr → α) (p : Ptr) (v : α) : Ptr → α :=
  fun q => if q = p then v else f q

def emit (w : World) (e : Event) : World :=
  { w with trace := w.trace ++ [e] }

/-- Write to an inode of the wrapfs superblock. -/
def modify_inode (w : World) (inode : Ptr) (f : Inode → Inode) : World :=
  { w with upper := { w.upper with inodes := upd w.upper.inodes inode (f (w.upper.inodes inode)) } }

/-- Modelled from the spec: `wrapfs_lower_inode` is defined in wrapfs.h, which is not
among the sources; it returns the lower node that the shadow node refers to
(`WRAPFS_I(inode)->lower_inode`). -/
def wrapfs_lower_inode (w : World) (inode : Ptr) : Ptr :=
  w.upper.lower_inode inode

/-- Modelled from the spec: `wrapfs_get_lower_path` is defined in wrapfs.h, which is not
among the sources; it resolves the virtual entry to its lower counterpart, a scoped
acquisition: the lower path of the entry is copied and a reference on it is taken. -/
def wrapfs_get_lower_path (w : World) (dentry : Ptr) : Path × World :=
  (w.upper.lower_path dentry, emit w (.get_lower_path dentry (w.upper.lower_path dentry)))

/-- Modelled from the spec: `wrapfs_put_lower_path` is defined in wrapfs.h, which is not
among the sources; it releases the reference taken by `wrapfs_get_lower_path`. -/
def wrapfs_put_lower_path (w : World) (dentry : Ptr) (lower_path : Path) : World :=
  emit w (.put_lower_path dentry lower_path)

/-- Modelled from the spec: `lock_parent` is defined in wrapfs.h, which is not among
the sources; it acquires the structural lock of the lower parent directory: the parent
of the entry is read (with a reference), then its lock is taken, and other tasks may
change the lower filesystem while the caller waits. -/
def lock_parent (E : Env) (w : World) (dentry : Ptr) : Ptr × World :=
  let dir := (w.lower.dentries dentry).d_parent
  (dir, emit { w with lower := E.lock_wait w.lower } (.lock_parent dentry dir))

/-- Modelled from the spec: `unlock_dir` is defined in wrapfs.h, which is not among the
sources; it releases the lock and the reference taken by `lock_parent`. -/
def unlock_dir (w : World) (dir : Ptr) : World :=
  emit w (.unlock_dir dir)

/-- The kernel's `dget`: one more reference on the entry. -/
def dget (w : World) (dentry : Ptr) : World :=
  emit w (.dget dentry)

/-- The kernel's `dput`: one reference less on the entry. -/
def dput (w : World) (dentry : Ptr) : World :=
  emit w (.dput dentry)

/-- The kernel's `dget_parent`: the parent of the entry, with a reference on it. -/
def dget_parent (w : World) (dentry : Ptr) : Ptr × World :=
  ((w.lower.dentries dentry).d_parent, emit w (.dget_parent dentry (w.lower.dentries dentry).d_parent))

/-- The kernel's `lock_rename`: both directories are locked and the trap is returned;
other tasks may change the lower filesystem while the caller waits. -/
def lock_rename (E : Env) (w : World) (p1 p2 : Ptr) : Ptr × World :=
  let trap := E.lock_rename w.lower p1 p2
  (trap, emit { w with lower := E.lock_wait w.lower } (.lock_rename p1 p2 trap))

def unlock_rename (w : World) (p1 p2 : Ptr) : World :=
  emit w (.unlock_rename p1 p2)

/-- The upper-side `d_drop`: the entry is unhashed. -/
def d_drop (w : World) (dentry : Ptr) : World :=
  emit { w with upper := { w.upper with
    dentries := upd w.upper.dentries dentry { w.upper.dentries dentry with unhashed := true } } }
    (.d_drop dentry)

/-- The kernel's `fsstack_copy_attr_times`: the three times of the lower inode `src`
go to the inode `dst` of the wrapfs superblock. -/
def fsstack_copy_attr_times (w : World) (dst src : Ptr) : World :=
  modify_inode w dst fun i =>
    { i with i_atime := (w.lower.inodes src).i_atime,
             i_mtime := (w.lower.inodes src).i_mtime,
             i_ctime := (w.lower.inodes src).i_ctime }

/-- The kernel's `fsstack_copy_inode_size`: size and block count of `src` go to `dst`. -/
def fsstack_copy_inode_size (w : World) (dst src : Ptr) : World :=
  modify_inode w dst fun i =>
    { i with i_size := (w.lower.inodes src).i_size,
             i_blocks := (w.lower.inodes src).i_blocks }

/-- The kernel's `fsstack_copy_attr_all`: mode, owner, device, times, block bits, flags
and link count of `src` go to `dst`; the size does not. -/
def fsstack_copy_attr_all (w : World) (dst src : Ptr) : World :=
  modify_inode w dst fun i =>
    { i with i_mode := (w.lower.inodes src).i_mode,
             i_uid := (w.lower.inodes src).i_uid,
             i_gid := (w.lower.inodes src).i_gid,
             i_rdev := (w.lower.inodes src).i_rdev,
             i_atime := (w.lower.inodes src).i_atime,
             i_mtime := (w.lower.inodes src).i_mtime,
             i_ctime := (w.lower.inodes src).i_ctime,
             i_blkbits := (w.lower.inodes src).i_blkbits,
             i_flags := (w.lower.inodes src).i_flags,
             i_nlink := (w.lower.inodes src).i_nlink }

def set_nlink (w : World) (inode : Ptr) (nlink : Nat) : World :=
  modify_inode w inode fun i => { i with i_nlink := nlink }

def clear_nlink (w : World) (inode : Ptr) : World :=
  modify_inode w inode fun i => { i with i_nlink := 0 }

def i_size_write (w : World) (inode : Ptr) (i_size : Nat) : World :=
  modify_inode w inode fun i => { i with i_size := i_size }

/-- The kernel's `truncate_setsize`: the size of the inode is written (the page cache
is not modelled). -/
def truncate_setsize (w : World) (inode : Ptr) (newsize : Nat) : World :=
  emit (i_size_write w inode newsize) (.truncate_setsize inode newsize)

/-! ## Calls of the lower primitives -/

def vfs_create (E : Env) (w : World) (dir dentry : Ptr) (mode : Nat) (want_excl : Bool) :
    Int × World :=
  ((E.vfs_create w.lower dir dentry mode want_excl).1,
   emit { w with lower := (E.vfs_create w.lower dir dentry mode want_excl).2 }
     (.vfs_create dir dentry mode want_excl))

def vfs_link (E : Env) (w : World) (old_dentry dir new_dentry : Ptr) : Int × World :=
  ((E.vfs_link w.lower old_dentry dir new_dentry).1,
   emit { w with lower := (E.vfs_link w.lower old_dentry dir new_dentry).2 }
     (.vfs_link old_dentry dir new_dentry))

def vfs_unlink (E : Env) (w : World) (dir dentry : Ptr) : Int × World :=
  ((E.vfs_unlink w.lower dir dentry).1,
   emit { w with lower := (E.vfs_unlink w.lower dir dentry).2 } (.vfs_unlink dir dentry))

def vfs_symlink (E : Env) (w : World) (dir dentry : Ptr) (symname : String) : Int × World :=
  ((E.vfs_symlink w.lower dir dentry symname).1,
   emit { w with lower := (E.vfs_symlink w.lower dir dentry symname).2 }
     (.vfs_symlink dir dentry symname))

def vfs_mkdir (E : Env) (w : World) (dir dentry : Ptr) (mode : Nat) : Int × World :=
  ((E.vfs_mkdir w.lower dir dentry mode).1,
   emit { w with lower := (E.vfs_mkdir w.lower dir dentry mode).2 } (.vfs_mkdir dir dentry mode))

def vfs_rmdir (E : Env) (w : World) (dir dentry : Ptr) : Int × World :=
  ((E.vfs_rmdir w.lower dir dentry).1,
   emit { w with lower := (E.vfs_rmdir w.lower dir dentry).2 } (.vfs_rmdir dir dentry))

def vfs_mknod (E : Env) (w : World) (dir dentry : Ptr) (mode dev : Nat) : Int × World :=
  ((E.vfs_mknod w.lower dir dentry mode dev).1,
   emit { w with lower := (E.vfs_mknod w.lower dir dentry mode dev).2 }
     (.vfs_mknod dir dentry mode dev))

def vfs_rename (E : Env) (w : World) (rd : Renamedata) : Int × World :=
  ((E.vfs_rename w.lower rd).1,
   emit { w with lower := (E.vfs_rename w.lower rd).2 } (.vfs_rename rd))

def wrapfs_interpose (E : Env) (w : World) (dentry sb : Ptr) (lower_path : Path) :
    Int × World :=
  ((E.wrapfs_interpose w.upper w.lower dentry sb lower_path).1,
   emit { w with upper := (E.wrapfs_interpose w.upper w.lower dentry sb lower_path).2 }
     (.wrapfs_interpose dentry sb lower_path))

def notify_change (E : Env) (w : World) (dentry : Ptr) (attr : Iattr) : Int × World :=
  ((E.notify_change w.lower dentry attr).1,
   emit { w with lower := (E.notify_change w.lower dentry attr).2 } (.notify_change dentry attr))

/-! ## The operations of inode.c -/

def wrapfs_create (E : Env) (w : World) (dir dentry : Ptr) (mode : Nat) (want_excl : Bool) :
    Int × World :=
  let g := wrapfs_get_lower_path w dentry
  let lower_path := g.1
  let lower_dentry := lower_path.dentry
  let l := lock_parent E g.2 lower_dentry
  let lower_parent_dentry := l.1
  let out := fun (err : Int) (w : World) =>
    (err, wrapfs_put_lower_path (unlock_dir w lower_parent_dentry) dentry lower_path)
  let c := vfs_create E l.2 (l.2.lower.dentries lower_parent_dentry).d_inode lower_dentry
    mode want_excl
  if c.1 ≠ 0 then out c.1 c.2 else
  let i := wrapfs_interpose E c.2 dentry (c.2.upper.inodes dir).i_sb lower_path
  if i.1 ≠ 0 then out i.1 i.2 else
  let w1 := fsstack_copy_attr_times i.2 dir (wrapfs_lower_inode i.2 dir)
  let w2 := fsstack_copy_inode_size w1 dir (w1.lower.dentries lower_parent_dentry).d_inode
  out i.1 w2

def wrapfs_link (E : Env) (w : World) (old_dentry dir new_dentry : Ptr) : Int × World :=
  let file_size_save := (w.upper.inodes (w.upper.dentries old_dentry).d_inode).i_size
  let g1 := wrapfs_get_lower_path w old_dentry
  let lower_old_path := g1.1
  let g2 := wrapfs_get_lower_path g1.2 new_dentry
  let lower_new_path := g2.1
  let lower_old_dentry := lower_old_path.dentry
  let lower_new_dentry := lower_new_path.dentry
  let l := lock_parent E g2.2 lower_new_dentry
  let lower_dir_dentry := l.1
  let out := fun (err : Int) (w : World) =>
    (err, wrapfs_put_lower_path
      (wrapfs_put_lower_path (unlock_dir w lower_dir_dentry) old_dentry lower_old_path)
      new_dentry lower_new_path)
  let c := vfs_link E l.2 lower_old_dentry (l.2.lower.dentries lower_dir_dentry).d_inode
    lower_new_dentry
  if c.1 ≠ 0 ∨ (c.2.lower.dentries lower_new_dentry).d_inode = 0 then out c.1 c.2 else
  let i := wrapfs_interpose E c.2 new_dentry (c.2.upper.inodes dir).i_sb lower_new_path
  if i.1 ≠ 0 then out i.1 i.2 else
  let w1 := fsstack_copy_attr_times i.2 dir (i.2.lower.dentries lower_new_dentry).d_inode
  let w2 := fsstack_copy_inode_size w1 dir (w1.lower.dentries lower_new_dentry).d_inode
  let w3 := set_nlink w2 (w2.upper.dentries old_dentry).d_inode
    (w2.lower.inodes (wrapfs_lower_inode w2 (w2.upper.dentries old_dentry).d_inode)).i_nlink
  let w4 := i_size_write w3 (w3.upper.dentries new_dentry).d_inode file_size_save
  out i.1 w4

def wrapfs_unlink (E : Env) (w : World) (dir dentry : Ptr) : Int × World :=
  let lower_dir_inode := wrapfs_lower_inode w dir
  let g := wrapfs_get_lower_path w dentry
  let lower_path := g.1
  let lower_dentry := lower_path.dentry
  let l := lock_parent E (dget g.2 lower_dentry) lower_dentry
  let lower_dir_dentry := l.1
  let out := fun (err : Int) (w : World) =>
    (err, wrapfs_put_lower_path (dput (unlock_dir w lower_dir_dentry) lower_dentry)
      dentry lower_path)
  if (l.2.lower.dentries lower_dentry).d_parent ≠ lower_dir_dentry ∨
      (l.2.lower.dentries lower_dentry).unhashed = true then out (-EINVAL) l.2 else
  let c := vfs_unlink E l.2 lower_dir_inode lower_dentry
  let err : Int :=
    if c.1 = -EBUSY ∧ (c.2.lower.dentries lower_dentry).d_flags &&& DCACHE_NFSFS_RENAMED ≠ 0
    then 0 else c.1
  if err ≠ 0 then out err c.2 else
  let w1 := fsstack_copy_attr_times c.2 dir lower_dir_inode
  let w2 := fsstack_copy_inode_size w1 dir lower_dir_inode
  let w3 := set_nlink w2 (w2.upper.dentries dentry).d_inode
    (w2.lower.inodes (wrapfs_lower_inode w2 (w2.upper.dentries dentry).d_inode)).i_nlink
  let w4 := modify_inode w3 (w3.upper.dentries dentry).d_inode fun i =>
    { i with i_ctime := (w3.upper.inodes dir).i_ctime }
  out err (d_drop w4 dentry)

def wrapfs_symlink (E : Env) (w : World) (dir dentry : Ptr) (symname : String) : Int × World :=
  let g := wrapfs_get_lower_path w dentry
  let lower_path := g.1
  let lower_dentry := lower_path.dentry
  let l := lock_parent E g.2 lower_dentry
  let lower_parent_dentry := l.1
  let out := fun (err : Int) (w : World) =>
    (err, wrapfs_put_lower_path (unlock_dir w lower_parent_dentry) dentry lower_path)
  let c := vfs_symlink E l.2 (l.2.lower.dentries lower_parent_dentry).d_inode lower_dentry
    symname
  if c.1 ≠ 0 then out c.1 c.2 else
  let i := wrapfs_interpose E c.2 dentry (c.2.upper.inodes dir).i_sb lower_path
  if i.1 ≠ 0 then out i.1 i.2 else
  let w1 := fsstack_copy_attr_times i.2 dir (wrapfs_lower_inode i.2 dir)
  let w2 := fsstack_copy_inode_size w1 dir (w1.lower.dentries lower_parent_dentry).d_inode
  out i.1 w2

def wrapfs_mkdir (E : Env) (w : World) (dir dentry : Ptr) (mode : Nat) : Int × World :=
  let g := wrapfs_get_lower_path w dentry
  let lower_path := g.1
  let lower_dentry := lower_path.dentry
  let l := lock_parent E g.2 lower_dentry
  let lower_parent_dentry := l.1
  let out := fun (err : Int) (w : World) =>
    (err, wrapfs_put_lower_path (unlock_dir w lower_parent_dentry) dentry lower_path)
  let c := vfs_mkdir E l.2 (l.2.lower.dentries lower_parent_dentry).d_inode lower_dentry mode
  if c.1 ≠ 0 then out c.1 c.2 else
  let i := wrapfs_interpose E c.2 dentry (c.2.upper.inodes dir).i_sb lower_path
  if i.1 ≠ 0 then out i.1 i.2 else
  let w1 := fsstack_copy_attr_times i.2 dir (wrapfs_lower_inode i.2 dir)
  let w2 := fsstack_copy_inode_size w1 dir (w1.lower.dentries lower_parent_dentry).d_inode
  let w3 := set_nlink w2 dir (w2.lower.inodes (wrapfs_lower_inode w2 dir)).i_nlink
  out i.1 w3

def wrapfs_rmdir (E : Env) (w : World) (dir dentry : Ptr) : Int × World :=
  let g := wrapfs_get_lower_path w dentry
  let lower_path := g.1
  let lower_dentry := lower_path.dentry
  let l := lock_parent E g.2 lower_dentry
  let lower_dir_dentry := l.1
  let out := fun (err : Int) (w : World) =>
    (err, wrapfs_put_lower_path (unlock_dir w lower_dir_dentry) dentry lower_path)
  if (l.2.lower.dentries lower_dentry).d_parent ≠ lower_dir_dentry ∨
      (l.2.lower.dentries lower_dentry).unhashed = true then out (-EINVAL) l.2 else
  let c := vfs_rmdir E l.2 (l.2.lower.dentries lower_dir_dentry).d_inode lower_dentry
  if c.1 ≠ 0 then out c.1 c.2 else
  let w1 := d_drop c.2 dentry
  let w2 := if (w1.upper.dentries dentry).d_inode ≠ 0
    then clear_nlink w1 (w1.upper.dentries dentry).d_inode else w1
  let w3 := fsstack_copy_attr_times w2 dir (w2.lower.dentries lower_dir_dentry).d_inode
  let w4 := fsstack_copy_inode_size w3 dir (w3.lower.dentries lower_dir_dentry).d_inode
  let w5 := set_nlink w4 dir (w4.lower.inodes (w4.lower.dentries lower_dir_dentry).d_inode).i_nlink
  out c.1 w5

def wrapfs_mknod (E : Env) (w : World) (dir dentry : Ptr) (mode dev : Nat) : Int × World :=
  let g := wrapfs_get_lower_path w dentry
  let lower_path := g.1
  let lower_dentry := lower_path.dentry
  let l := lock_parent E g.2 lower_dentry
  let lower_parent_dentry := l.1
  let out := fun (err : Int) (w : World) =>
    (err, wrapfs_put_lower_path (unlock_dir w lower_parent_dentry) dentry lower_path)
  let c := vfs_mknod E l.2 (l.2.lower.dentries lower_parent_dentry).d_inode lower_dentry
    mode dev
  if c.1 ≠ 0 then out c.1 c.2 else
  let i := wrapfs_interpose E c.2 dentry (c.2.upper.inodes dir).i_sb lower_path
  if i.1 ≠ 0 then out i.1 i.2 else
  let w1 := fsstack_copy_attr_times i.2 dir (wrapfs_lower_inode i.2 dir)
  let w2 := fsstack_copy_inode_size w1 dir (w1.lower.dentries lower_parent_dentry).d_inode
  out i.1 w2

def wrapfs_rename (E : Env) (w : World) (old_dir old_dentry new_dir new_dentry : Ptr)
    (flags : Nat) : Int × World :=
  if flags ≠ 0 then (-EINVAL, w) else
  let g1 := wrapfs_get_lower_path w old_dentry
  let lower_old_path := g1.1
  let g2 := wrapfs_get_lower_path g1.2 new_dentry
  let lower_new_path := g2.1
  let lower_old_dentry := lower_old_path.dentry
  let lower_new_dentry := lower_new_path.dentry
  let p1 := dget_parent g2.2 lower_old_dentry
  let lower_old_dir_dentry := p1.1
  let p2 := dget_parent p1.2 lower_new_dentry
  let lower_new_dir_dentry := p2.1
  let t := lock_rename E p2.2 lower_old_dir_dentry lower_new_dir_dentry
  let trap := t.1
  let out := fun (err : Int) (w : World) =>
    (err, wrapfs_put_lower_path
      (wrapfs_put_lower_path
        (dput (dput (unlock_rename w lower_old_dir_dentry lower_new_dir_dentry)
          lower_old_dir_dentry) lower_new_dir_dentry)
        old_dentry lower_old_path)
      new_dentry lower_new_path)
  if (t.2.lower.dentries lower_old_dentry).d_parent ≠ lower_old_dir_dentry then
    out (-EINVAL) t.2 else
  if (t.2.lower.dentries lower_new_dentry).d_parent ≠ lower_new_dir_dentry then
    out (-EINVAL) t.2 else
  if (t.2.lower.dentries lower_old_dentry).unhashed = true ∨
      (t.2.lower.dentries lower_new_dentry).unhashed = true then out (-EINVAL) t.2 else
  if trap = lower_old_dentry then out (-EINVAL) t.2 else
  if trap = lower_new_dentry then out (-ENOTEMPTY) t.2 else
  let rd : Renamedata :=
    { old_dir := old_dir, old_dentry := old_dentry,
      new_dir := new_dir, new_dentry := new_dentry, flags := flags }
  let r := vfs_rename E t.2 rd
  if r.1 ≠ 0 then out r.1 r.2 else
  let w1 := fsstack_copy_attr_all r.2 new_dir (r.2.lower.dentries lower_new_dir_dentry).d_inode
  let w2 := fsstack_copy_inode_size w1 new_dir (w1.lower.dentries lower_new_dir_dentry).d_inode
  let w3 := if new_dir ≠ old_dir then
      fsstack_copy_inode_size
        (fsstack_copy_attr_all w2 old_dir (w2.lower.dentries lower_old_dir_dentry).d_inode)
        old_dir (w2.lower.dentries lower_old_dir_dentry).d_inode
    else w2
  out r.1 w3

/-- The result of `wrapfs_setattr`: the value returned, the world, and the
contents of the caller's `*ia` when the call returns. -/
structure SetattrResult where
  err : Int
  world : World
  ia : Iattr

def wrapfs_setattr (E : Env) (w : World) (dentry : Ptr) (ia : Iattr) : SetattrResult :=
  let inode := (w.upper.dentries dentry).d_inode
  let err := E.setattr_prepare w.upper dentry ia
  if err ≠ 0 then { err := err, world := w, ia := ia } else
  let g := wrapfs_get_lower_path w dentry
  let lower_path := g.1
  let lower_dentry := lower_path.dentry
  let lower_inode := wrapfs_lower_inode g.2 inode
  let out := fun (err : Int) (w : World) =>
    ({ err := err, world := wrapfs_put_lower_path w dentry lower_path, ia := ia } : SetattrResult)
  let lower_ia0 : Iattr := ia
  let lower_ia1 : Iattr :=
    if ia.ia_valid &&& ATTR_FILE ≠ 0
    then { lower_ia0 with ia_file := g.2.upper.lower_file ia.ia_file } else lower_ia0
  let rest := fun (w1 : World) =>
    let lower_ia2 : Iattr :=
      if lower_ia1.ia_valid &&& (ATTR_KILL_SUID ||| ATTR_KILL_SGID) ≠ 0
      then { lower_ia1 with ia_valid := lower_ia1.ia_valid &&& NOT_ATTR_MODE } else lower_ia1
    let w2 := emit w1 (.inode_lock (w1.lower.dentries lower_dentry).d_inode)
    let n := notify_change E w2 lower_dentry lower_ia2
    let w3 := emit n.2 (.inode_unlock (n.2.lower.dentries lower_dentry).d_inode)
    if n.1 ≠ 0 then out n.1 w3 else
    out n.1 (fsstack_copy_attr_all w3 inode lower_inode)
  if ia.ia_valid &&& ATTR_SIZE ≠ 0 then
    let err := E.inode_newsize_ok (g.2.upper.inodes inode) ia.ia_size
    if err ≠ 0 then out err g.2 else
    rest (truncate_setsize g.2 inode ia.ia_size)
  else rest g.2

/-! ## The extended-attribute operations of inode.c -/

/-- The flag `IOP_XATTR` of include/linux/fs.h. -/
def IOP_XATTR : Nat := 0x0008

/-- The conversion of an `ssize_t` to `int` (the type of the local `err`). -/
def to_int (x : Int) : Int :=
  (x + 2 ^ 31) % 2 ^ 32 - 2 ^ 31

/-- The extended-attribute primitives of the kernel: each sees the lower store and its
arguments and returns its result and the new lower store. -/
structure XattrEnv where
  vfs_setxattr : Store → Ptr → String → Ptr → Nat → Int → Int × Store
  vfs_getxattr : Store → Ptr → String → Ptr → Nat → Int × Store
  vfs_listxattr : Store → Ptr → Ptr → Nat → Int × Store
  vfs_removexattr : Store → Ptr → String → Int × Store

/-- The kernel's `fsstack_copy_attr_atime`: the access time of `src` goes to `dst`. -/
def fsstack_copy_attr_atime (w : World) (dst src : Ptr) : World :=
  modify_inode w dst fun i => { i with i_atime := (w.lower.inodes src).i_atime }

def vfs_setxattr (X : XattrEnv) (w : World) (dentry : Ptr) (name : String) (value : Ptr)
    (size : Nat) (flags : Int) : Int × World :=
  ((X.vfs_setxattr w.lower dentry name value size flags).1,
   emit { w with lower := (X.vfs_setxattr w.lower dentry name value size flags).2 }
     (.vfs_setxattr dentry name value size flags))

def vfs_getxattr (X : XattrEnv) (w : World) (dentry : Ptr) (name : String) (buffer : Ptr)
    (size : Nat) : Int × World :=
  ((X.vfs_getxattr w.lower dentry name buffer size).1,
   emit { w with lower := (X.vfs_getxattr w.lower dentry name buffer size).2 }
     (.vfs_getxattr dentry name buffer size))

def vfs_listxattr (X : XattrEnv) (w : World) (dentry : Ptr) (buffer : Ptr) (size : Nat) :
    Int × World :=
  ((X.vfs_listxattr w.lower dentry buffer size).1,
   emit { w with lower := (X.vfs_listxattr w.lower dentry buffer size).2 }
     (.vfs_listxattr dentry buffer size))

def vfs_removexattr (X : XattrEnv) (w : World) (dentry : Ptr) (name : String) : Int × World :=
  ((X.vfs_removexattr w.lower dentry name).1,
   emit { w with lower := (X.vfs_removexattr w.lower dentry name).2 }
     (.vfs_removexattr dentry name))

def wrapfs_setxattr (X : XattrEnv) (w : World) (dentry inode : Ptr) (name : String)
    (value : Ptr) (size : Nat) (flags : Int) : Int × World :=
  let g := wrapfs_get_lower_path w dentry
  let lower_path := g.1
  let lower_dentry := lower_path.dentry
  let out := fun (err : Int) (w : World) => (err, wrapfs_put_lower_path w dentry lower_path)
  if (g.2.lower.inodes (g.2.lower.dentries lower_dentry).d_inode).i_opflags &&& IOP_XATTR = 0
  then out (-EOPNOTSUPP) g.2 else
  let c := vfs_setxattr X g.2 lower_dentry name value size flags
  if c.1 ≠ 0 then out c.1 c.2 else
  out c.1 (fsstack_copy_attr_all c.2 (c.2.upper.dentries dentry).d_inode
    (c.2.lower.dentries lower_path.dentry).d_inode)

def wrapfs_getxattr (X : XattrEnv) (w : World) (dentry inode : Ptr) (name : String)
    (buffer : Ptr) (size : Nat) : Int × World :=
  let g := wrapfs_get_lower_path w dentry
  let lower_path := g.1
  let lower_dentry := lower_path.dentry
  let _lower_inode := wrapfs_lower_inode g.2 inode
  let out := fun (err : Int) (w : World) => (err, wrapfs_put_lower_path w dentry lower_path)
  if (g.2.lower.inodes (g.2.lower.dentries lower_dentry).d_inode).i_opflags &&& IOP_XATTR = 0
  then out (-EOPNOTSUPP) g.2 else
  let c := vfs_getxattr X g.2 lower_dentry name buffer size
  let err := to_int c.1
  if err ≠ 0 then out err c.2 else
  out err (fsstack_copy_attr_atime c.2 (c.2.upper.dentries dentry).d_inode
    (c.2.lower.dentries lower_path.dentry).d_inode)

def wrapfs_listxattr (X : XattrEnv) (w : World) (dentry : Ptr) (buffer : Ptr)
    (buffer_size : Nat) : Int × World :=
  let g := wrapfs_get_lower_path w dentry
  let lower_path := g.1
  let lower_dentry := lower_path.dentry
  let out := fun (err : Int) (w : World) => (err, wrapfs_put_lower_path w dentry lower_path)
  if (g.2.lower.inodes (g.2.lower.dentries lower_dentry).d_inode).i_opflags &&& IOP_XATTR = 0
  then out (-EOPNOTSUPP) g.2 else
  let c := vfs_listxattr X g.2 lower_dentry buffer buffer_size
  let err := to_int c.1
  if err ≠ 0 then out err c.2 else
  out err (fsstack_copy_attr_atime c.2 (c.2.upper.dentries dentry).d_inode
    (c.2.lower.dentries lower_path.dentry).d_inode)

def wrapfs_removexattr (X : XattrEnv) (w : World) (dentry inode : Ptr) (name : String) :
    Int × World :=
  let g := wrapfs_get_lower_path w dentry
  let lower_path := g.1
  let lower_dentry := lower_path.dentry
  let lower_inode := wrapfs_lower_inode g.2 inode
  let out := fun (err : Int) (w : World) => (err, wrapfs_put_lower_path w dentry lower_path)
  if (g.2.lower.inodes lower_inode).i_opflags &&& IOP_XATTR = 0
  then out (-EOPNOTSUPP) g.2 else
  let c := vfs_removexattr X g.2 lower_dentry name
  if c.1 ≠ 0 then out c.1 c.2 else
  out c.1 (fsstack_copy_attr_all c.2 (c.2.upper.dentries dentry).d_inode lower_inode)

/-! ## The fault handlers of mmap.c

The shared mapping descriptors (`struct vm_area_struct`) live in `MapWorld.vmas`; the
local `lower_vma` of a handler is a value of its own at the stack address
`lower_vma_addr`.  A handler of the lower filesystem may read and write the shared
descriptors, the descriptor that the request points to, and the request. -/

/-- The fields of `struct vm_area_struct`. -/
structure VmAreaStruct where
  vm_start : Nat
  vm_end : Nat
  vm_mm : Ptr
  vm_page_prot : Nat
  vm_flags : Nat
  vm_ops : Ptr
  vm_pgoff : Nat
  vm_file : Ptr
  vm_private_data : Ptr
deriving DecidableEq, Repr, Inhabited

/-- The fields of `struct vm_fault`. -/
structure VmFault where
  vma : Ptr
  gfp_mask : Nat
  pgoff : Nat
  address : Nat
  flags : Nat
  page : Ptr
deriving DecidableEq, Repr, Inhabited

/-- What a handler of the lower filesystem leaves behind: its result, the shared
descriptors, the descriptor that the request pointed to, and the request. -/
structure FaultOutcome where
  ret : Nat
  vmas : Ptr → VmAreaStruct
  vma : VmAreaStruct
  vmf : VmFault

/-- The handlers of the lower `vm_operations_struct` at the address `ops`, applied to
the shared descriptors, the descriptor the request points to, and the request;
`has_page_mkwrite` tells whether `ops->page_mkwrite` is non-NULL. -/
structure MapEnv where
  fault : Ptr → (Ptr → VmAreaStruct) → VmAreaStruct → VmFault → FaultOutcome
  page_mkwrite : Ptr → (Ptr → VmAreaStruct) → VmAreaStruct → VmFault → FaultOutcome
  has_page_mkwrite : Ptr → Bool

/-- The calls of lower handlers, with the descriptor the request points to and the
request. -/
inductive MapEvent where
  | fault (ops : Ptr) (lower_vma : VmAreaStruct) (vmf : VmFault)
  | page_mkwrite (ops : Ptr) (lower_vma : VmAreaStruct) (vmf : VmFault)
deriving DecidableEq, Repr

/-- The shared descriptors, the wrapfs private data of files
(`WRAPFS_F(file)->lower_file`, `WRAPFS_F(file)->lower_vm_ops`) and the calls made. -/
structure MapWorld where
  vmas : Ptr → VmAreaStruct
  lower_file : Ptr → Ptr
  lower_vm_ops : Ptr → Ptr
  trace : List MapEvent

/-- What a fault handler of wrapfs returns: its result, the world, and the request
`*vmf` as it is at return. -/
structure FaultResult where
  err : Nat
  world : MapWorld
  vmf : VmFault

/-- The handler `wrapfs_fault`; `none` is the `BUG_ON` of a NULL `lower_vm_ops`. -/
def wrapfs_fault (E : MapEnv) (m : MapWorld) (lower_vma_addr : Ptr) (vmf : VmFault) :
    Option FaultResult :=
  let vma := vmf.vma
  let lower_vma0 : VmAreaStruct := m.vmas vma
  let file := lower_vma0.vm_file
  let lower_vm_ops := m.lower_vm_ops file
  if lower_vm_ops = 0 then none else
  let lower_file := m.lower_file file
  let lower_vma : VmAreaStruct := { lower_vma0 with vm_file := lower_file }
  let vmf1 : VmFault := { vmf with vma := lower_vma_addr }
  let o := E.fault lower_vm_ops m.vmas lower_vma vmf1
  let vmf2 : VmFault := { o.vmf with vma := vma }
  some { err := o.ret
         world := { m with vmas := o.vmas,
                           trace := m.trace ++ [.fault lower_vm_ops lower_vma vmf1] }
         vmf := vmf2 }

/-- The handler `wrapfs_page_mkwrite`; `none` is the `BUG_ON` of a NULL `lower_vm_ops`. -/
def wrapfs_page_mkwrite (E : MapEnv) (m : MapWorld) (lower_vma_addr : Ptr) (vmf : VmFault) :
    Option FaultResult :=
  let err : Nat := 0
  let vma := vmf.vma
  let lower_vma0 : VmAreaStruct := m.vmas vma
  let file := lower_vma0.vm_file
  let lower_vm_ops := m.lower_vm_ops file
  if lower_vm_ops = 0 then none else
  if E.has_page_mkwrite lower_vm_ops = false then some { err := err, world := m, vmf := vmf }
  else
  let lower_file := m.lower_file file
  let lower_vma : VmAreaStruct := { lower_vma0 with vm_file := lower_file }
  let vmf1 : VmFault := { vmf with vma := lower_vma_addr }
  let o := E.page_mkwrite lower_vm_ops m.vmas lower_vma vmf1
  let vmf2 : VmFault := { o.vmf with vma := vma }
  some { err := o.ret
         world := { m with vmas := o.vmas,
                           trace := m.trace ++ [.page_mkwrite lower_vm_ops lower_vma vmf1] }
         vmf := vmf2 }

/-! ## Vocabulary of the statements -/

/-- The events that a call appended to the trace of `w`, given the world `w2`
it returned. -/
def log_since (w w2 : World) : List Event :=
  w2.trace.drop w.trace.length

/-- The calls of a primitive of the lower filesystem. -/
def is_primitive : Event → Bool
  | .vfs_create _ _ _ _ => true
  | .vfs_link _ _ _ => true
  | .vfs_unlink _ _ => true
  | .vfs_symlink _ _ _ => true
  | .vfs_mkdir _ _ _ => true
  | .vfs_rmdir _ _ => true
  | .vfs_mknod _ _ _ _ => true
  | .vfs_rename _ => true
  | _ => false

def is_interpose : Event → Bool
  | .wrapfs_interpose _ _ _ => true
  | _ => false

def is_d_drop : Event → Bool
  | .d_drop _ => true
  | _ => false

/-- The lower entry that an operation on the virtual entry `dentry` resolves. -/
def lower_dentry_of (w : World) (dentry : Ptr) : Ptr :=
  (w.upper.lower_path dentry).dentry

/-- The lower parent directory that `lock_parent` / `dget_parent` returns for
the lower entry of `dentry`: its parent when the call starts. -/
def lower_parent_of (w : World) (dentry : Ptr) : Ptr :=
  (w.lower.dentries (lower_dentry_of w dentry)).d_parent

/-- The lower store once the directory lock(s) are held. -/
def locked_lower (E : Env) (w : World) : Store :=
  E.lock_wait w.lower

/-- The post-lock validation of one entry: after locking, the parent pointer of the
lower entry is the locked directory and the lower entry is hashed. -/
def entry_valid (E : Env) (w : World) (dentry : Ptr) : Prop :=
  ((locked_lower E w).dentries (lower_dentry_of w dentry)).d_parent = lower_parent_of w dentry ∧
    ((locked_lower E w).dentries (lower_dentry_of w dentry)).unhashed = false

/-- The post-lock validation of rename: both entries are valid. -/
def rename_valid (E : Env) (w : World) (old_dentry new_dentry : Ptr) : Prop :=
  entry_valid E w old_dentry ∧ entry_valid E w new_dentry

/-- The trap that the two-directory lock returns in a rename of `old_dentry`
to `new_dentry`. -/
def rename_trap (E : Env) (w : World) (old_dentry new_dentry : Ptr) : Ptr :=
  E.lock_rename w.lower (lower_parent_of w old_dentry) (lower_parent_of w new_dentry)

/-- The result and the lower store that the lower unlink primitive returns in
`wrapfs_unlink E w dir dentry`. -/
def unlink_primitive (E : Env) (w : World) (dir dentry : Ptr) : Int × Store :=
  E.vfs_unlink (locked_lower E w) (w.upper.lower_inode dir) (lower_dentry_of w dentry)

/-- The lower entry carries the flag `DCACHE_NFSFS_RENAMED` in the store `s`. -/
def nfs_renamed (s : Store) (lower_dentry : Ptr) : Prop :=
  (s.dentries lower_dentry).d_flags &&& DCACHE_NFSFS_RENAMED ≠ 0

instance (s : Store) (d : Ptr) : Decidable (nfs_renamed s d) :=
  inferInstanceAs (Decidable (_ ≠ _))

instance (E : Env) (w : World) (dentry : Ptr) : Decidable (entry_valid E w dentry) :=
  inferInstanceAs (Decidable (_ ∧ _))

instance (E : Env) (w : World) (a b : Ptr) : Decidable (rename_valid E w a b) :=
  inferInstanceAs (Decidable (_ ∧ _))

/-- The inode of the locked lower parent directory of `dentry`, read in the
lower store `s`. -/
def lower_parent_inode (s : Store) (w : World) (dentry : Ptr) : Ptr :=
  (s.dentries (lower_parent_of w dentry)).d_inode

/-- What the lower primitive returns in `wrapfs_create E w dir dentry mode want_excl`. -/
def create_primitive (E : Env) (w : World) (dentry : Ptr) (mode : Nat) (want_excl : Bool) :
    Int × Store :=
  E.vfs_create (locked_lower E w) (lower_parent_inode (locked_lower E w) w dentry)
    (lower_dentry_of w dentry) mode want_excl

/-- What the lower primitive returns in `wrapfs_link E w old_dentry dir new_dentry`. -/
def link_primitive (E : Env) (w : World) (old_dentry new_dentry : Ptr) : Int × Store :=
  E.vfs_link (locked_lower E w) (lower_dentry_of w old_dentry)
    (lower_parent_inode (locked_lower E w) w new_dentry) (lower_dentry_of w new_dentry)

/-- What the lower primitive returns in `wrapfs_symlink E w dir dentry symname`. -/
def symlink_primitive (E : Env) (w : World) (dentry : Ptr) (symname : String) : Int × Store :=
  E.vfs_symlink (locked_lower E w) (lower_parent_inode (locked_lower E w) w dentry)
    (lower_dentry_of w dentry) symname

/-- What the lower primitive returns in `wrapfs_mkdir E w dir dentry mode`. -/
def mkdir_primitive (E : Env) (w : World) (dentry : Ptr) (mode : Nat) : Int × Store :=
  E.vfs_mkdir (locked_lower E w) (lower_parent_inode (locked_lower E w) w dentry)
    (lower_dentry_of w dentry) mode

/-- What the lower primitive returns in `wrapfs_rmdir E w dir dentry`. -/
def rmdir_primitive (E : Env) (w : World) (dentry : Ptr) : Int × Store :=
  E.vfs_rmdir (locked_lower E w) (lower_parent_inode (locked_lower E w) w dentry)
    (lower_dentry_of w dentry)

/-- What the lower primitive returns in `wrapfs_mknod E w dir dentry mode dev`. -/
def mknod_primitive (E : Env) (w : World) (dentry : Ptr) (mode dev : Nat) : Int × Store :=
  E.vfs_mknod (locked_lower E w) (lower_parent_inode (locked_lower E w) w dentry)
    (lower_dentry_of w dentry) mode dev

/-- The cached times and size of the virtual inode `dir` equal those of the lower
inode `lower_dir`. -/
def times_size_match (w : World) (dir lower_dir : Ptr) : Prop :=
  (w.upper.inodes dir).i_atime = (w.lower.inodes lower_dir).i_atime ∧
  (w.upper.inodes dir).i_mtime = (w.lower.inodes lower_dir).i_mtime ∧
  (w.upper.inodes dir).i_ctime = (w.lower.inodes lower_dir).i_ctime ∧
  (w.upper.inodes dir).i_size = (w.lower.inodes lower_dir).i_size

instance (w : World) (a b : Ptr) : Decidable (times_size_match w a b) :=
  inferInstanceAs (Decidable (_ ∧ _))

/-- What `wrapfs_interpose` returns when an operation in the directory `dir` calls it on
the virtual entry `dentry` and its lower path, the lower primitive having left the lower
store `s`. -/
def interposition (E : Env) (w : World) (s : Store) (dir dentry : Ptr) : Int × Shadow :=
  E.wrapfs_interpose w.upper s dentry (w.upper.inodes dir).i_sb (w.upper.lower_path dentry)

/-- The call of `wrapfs_interpose` on the virtual entry `dentry` and its lower path. -/
def interpose_call (w : World) (dir dentry : Ptr) : Event :=
  .wrapfs_interpose dentry (w.upper.inodes dir).i_sb (w.upper.lower_path dentry)

/-- The calls of lower primitives and of `wrapfs_interpose` among the events `t`, in
their order. -/
def primitive_and_interpose_calls (t : List Event) : List Event :=
  t.filter fun e => is_primitive e || is_interpose e

/-- The calls of an extended-attribute primitive of the lower filesystem. -/
def is_xattr_primitive : Event → Bool
  | .vfs_setxattr _ _ _ _ _ => true
  | .vfs_getxattr _ _ _ _ => true
  | .vfs_listxattr _ _ _ => true
  | .vfs_removexattr _ _ => true
  | _ => false

/-- The calls of an extended-attribute primitive among the events `t`. -/
def xattr_calls (t : List Event) : List Event :=
  t.filter fun e => is_xattr_primitive e

/-- The node of the lower entry that an operation on `dentry` resolves. -/
def lower_node_of (w : World) (dentry : Ptr) : Ptr :=
  (w.lower.dentries (lower_dentry_of w dentry)).d_inode

/-- The lower node `inode` has the extended-attribute capability flag. -/
def xattr_capable (s : Store) (inode : Ptr) : Prop :=
  (s.inodes inode).i_opflags &&& IOP_XATTR ≠ 0

instance (s : Store) (inode : Ptr) : Decidable (xattr_capable s inode) :=
  inferInstanceAs (Decidable (_ ≠ _))

/-- The value is a value of the C type `int`. -/
def fits_int (x : Int) : Prop :=
  -(2 ^ 31) ≤ x ∧ x < 2 ^ 31

instance (x : Int) : Decidable (fits_int x) :=
  inferInstanceAs (Decidable (_ ∧ _))

/-- The file of the shared descriptor that the request points to. -/
def mapped_file (m : MapWorld) (vmf : VmFault) : Ptr :=
  (m.vmas vmf.vma).vm_file

/-- The lower `vm_operations_struct` of the mapped file. -/
def lower_ops_of (m : MapWorld) (vmf : VmFault) : Ptr :=
  m.lower_vm_ops (mapped_file m vmf)

/-- The descriptor `lv` equals the shared descriptor that the request points to in
every field except the file, which is the lower file of the mapped file. -/
def private_copy (m : MapWorld) (vmf : VmFault) (lv : VmAreaStruct) : Prop :=
  lv.vm_file = m.lower_file (mapped_file m vmf) ∧
  lv.vm_start = (m.vmas vmf.vma).vm_start ∧
  lv.vm_end = (m.vmas vmf.vma).vm_end ∧
  lv.vm_mm = (m.vmas vmf.vma).vm_mm ∧
  lv.vm_page_prot = (m.vmas vmf.vma).vm_page_prot ∧
  lv.vm_flags = (m.vmas vmf.vma).vm_flags ∧
  lv.vm_ops = (m.vmas vmf.vma).vm_ops ∧
  lv.vm_pgoff = (m.vmas vmf.vma).vm_pgoff ∧
  lv.vm_private_data = (m.vmas vmf.vma).vm_private_data

/-- The request `vmf` made to point to the descriptor at `addr`. -/
def redirected (vmf : VmFault) (addr : Ptr) : VmFault :=
  { vmf with vma := addr }

/-- The shim result `r` forwards the outcome `o` of the lower handler: the result is
the handler's, the shared descriptors are as the handler left them, and the request is as
the handler left it except that it points to the shared descriptor `vma` again. -/
def forwards (r : FaultResult) (o : FaultOutcome) (vma : Ptr) : Prop :=
  r.err = o.ret ∧ r.world.vmas = o.vmas ∧ r.vmf = redirected o.vmf vma ∧ r.vmf.vma = vma

/-! ## Resources -/

/-- What an operation holds for a while: a reference on a lower path
(`wrapfs_get_lower_path` / `wrapfs_put_lower_path`), the lock of a lower directory with
the reference on it (`lock_parent` / `unlock_dir`), the two-directory lock
(`lock_rename` / `unlock_rename`), an extra reference on an entry (`dget`,
`dget_parent` / `dput`). -/
inductive Resource where
  | lower_path (dentry : Ptr) (lower_path : Path)
  | dir_lock (dir : Ptr)
  | rename_lock (p1 : Ptr) (p2 : Ptr)
  | dentry_ref (dentry : Ptr)
deriving DecidableEq, Repr

def acquired : Event → Option Resource
  | .get_lower_path d p => some (.lower_path d p)
  | .lock_parent _ dir => some (.dir_lock dir)
  | .lock_rename p1 p2 _ => some (.rename_lock p1 p2)
  | .dget d => some (.dentry_ref d)
  | .dget_parent _ parent => some (.dentry_ref parent)
  | _ => none

def released : Event → Option Resource
  | .put_lower_path d p => some (.lower_path d p)
  | .unlock_dir dir => some (.dir_lock dir)
  | .unlock_rename p1 p2 => some (.rename_lock p1 p2)
  | .dput d => some (.dentry_ref d)
  | _ => none

/-- How often the events `t` acquire the resource `r`. -/
def acquisitions (r : Resource) (t : List Event) : Nat :=
  t.countP fun e => acquired e = some r

/-- How often the events `t` release the resource `r`. -/
def releases (r : Resource) (t : List Event) : Nat :=
  t.countP fun e => released e = some r

/-- One event against the resources held: an acquisition adds the resource, a release
removes one copy of it and fails (`none`) when the resource is not held. -/
def track_step (held : Option (List Resource)) (e : Event) : Option (List Resource) :=
  match held with
  | none => none
  | some h =>
    match released e with
    | some r => if r ∈ h then some (h.erase r) else none
    | none =>
      match acquired e with
      | some r => some (r :: h)
      | none => some h

/-- The resources held after the events `t`, starting with none held. -/
def track (t : List Event) : Option (List Resource) :=
  t.foldl track_step (some [])

/-- Every release in `t` releases a resource that is held, and nothing is held at
the end. -/
def balanced (t : List Event) : Prop :=
  track t = some []

instance (t : List Event) : Decidable (balanced t) :=
  inferInstanceAs (Decidable (_ = _))

/-- Every release in `t` releases a held resource, nothing is held after `t`, and
every resource is released exactly as often as `t` acquires it. -/
def released_exactly_once (t : List Event) : Prop :=
  balanced t ∧ ∀ r, acquisitions r t = releases r t

/-- The mask contains the flag. -/
def mask_has (mask flag : Nat) : Prop :=
  mask &&& flag ≠ 0

instance (mask flag : Nat) : Decidable (mask_has mask flag) :=
  inferInstanceAs (Decidable (_ ≠ _))

def is_notify_change : Event → Bool
  | .notify_change _ _ => true
  | _ => false

/-- The request `a` is the caller's request `ia` forwarded as the specification says:
the mask without the bits of `ATTR_MODE` when it contains `ATTR_KILL_SUID` or
`ATTR_KILL_SGID` and the same mask otherwise, the lower file in place of the file when
the mask contains `ATTR_FILE`, every other field the same. -/
def forwarded_as (w : World) (ia a : Iattr) : Prop :=
  (mask_has ia.ia_valid ATTR_KILL_SUID ∨ mask_has ia.ia_valid ATTR_KILL_SGID →
    ∀ i, a.ia_valid.testBit i = (ia.ia_valid.testBit i && !ATTR_MODE.testBit i)) ∧
  (¬ (mask_has ia.ia_valid ATTR_KILL_SUID ∨ mask_has ia.ia_valid ATTR_KILL_SGID) →
    a.ia_valid = ia.ia_valid) ∧
  a.ia_mode = ia.ia_mode ∧ a.ia_uid = ia.ia_uid ∧ a.ia_gid = ia.ia_gid ∧
  a.ia_size = ia.ia_size ∧ a.ia_atime = ia.ia_atime ∧ a.ia_mtime = ia.ia_mtime ∧
  a.ia_ctime = ia.ia_ctime ∧
  a.ia_file = (if mask_has ia.ia_valid ATTR_FILE then w.upper.lower_file ia.ia_file
    else ia.ia_file)

/-- The local request `lower_ia` of wrapfs_setattr as it is when notify_change is
called: the copy of `*ia`, its file replaced, its mask cut (inode.c 386-388, 409-410). -/
def setattr_lower_ia (w : World) (ia : Iattr) : Iattr :=
  let lower_ia1 : Iattr :=
    if ia.ia_valid &&& ATTR_FILE ≠ 0
    then { ia with ia_file := w.upper.lower_file ia.ia_file } else ia
  if lower_ia1.ia_valid &&& (ATTR_KILL_SUID ||| ATTR_KILL_SGID) ≠ 0
  then { lower_ia1 with ia_valid := lower_ia1.ia_valid &&& NOT_ATTR_MODE } else lower_ia1

/-! ## A concrete namespace

Virtual directories `10` (inode `1`) and `12` (inode `3`), virtual entries `11`
(inode `2`) in `10` and `13` (negative) in `12`.  The lower object of a virtual
object has its address plus `100`. -/

def ex_time (t : Int) : Timespec64 := { tv_sec := t, tv_nsec := 0 }

def ex_inode (size : Nat) (t : Int) (nlink : Nat) : Inode :=
  { (default : Inode) with
    i_size := size, i_nlink := nlink,
    i_atime := ex_time t, i_mtime := ex_time t, i_ctime := ex_time t }

def ex_dentry (parent inode : Ptr) : Dentry :=
  { d_flags := 0, d_parent := parent, d_inode := inode, unhashed := false }

def ex_upper : Shadow :=
  { inodes := fun p =>
      if p = 1 then ex_inode 4096 10 2 else
      if p = 2 then ex_inode 7 12 1 else
      if p = 3 then ex_inode 4096 11 2 else default
    dentries := fun p =>
      if p = 10 then ex_dentry 9 1 else
      if p = 11 then ex_dentry 10 2 else
      if p = 12 then ex_dentry 9 3 else
      if p = 13 then ex_dentry 12 0 else default
    lower_path := fun p => { mnt := 5, dentry := p + 100 }
    lower_inode := fun p => p + 100
    lower_file := fun p => p + 100 }

def ex_lower : Store :=
  { inodes := fun p =>
      if p = 101 then ex_inode 8192 20 2 else
      if p = 102 then ex_inode 7 12 1 else
      if p = 103 then ex_inode 8192 21 2 else default
    dentries := fun p =>
      if p = 110 then ex_dentry 109 101 else
      if p = 111 then ex_dentry 110 102 else
      if p = 112 then ex_dentry 109 103 else
      if p = 113 then ex_dentry 112 0 else default }

def ex_world : World :=
  { upper := ex_upper, lower := ex_lower, trace := [] }

/-- An environment in which waiting for a lock lets `wait` happen, the trap is
`trap`, every lower primitive returns `res` after changing the lower store by
`prim`, and interposition returns `ires`. -/
def ex_env (wait : Store → Store) (trap : Ptr) (res : Int) (prim : Store → Store)
    (ires : Int) : Env :=
  { lock_wait := wait
    lock_rename := fun _ _ _ => trap
    vfs_create := fun s _ _ _ _ => (res, prim s)
    vfs_link := fun s _ _ _ => (res, prim s)
    vfs_unlink := fun s _ _ => (res, prim s)
    vfs_symlink := fun s _ _ _ => (res, prim s)
    vfs_mkdir := fun s _ _ _ => (res, prim s)
    vfs_rmdir := fun s _ _ => (res, prim s)
    vfs_mknod := fun s _ _ _ _ => (res, prim s)
    vfs_rename := fun s _ => (res, prim s)
    wrapfs_interpose := fun u _ _ _ _ => (ires, u)
    setattr_prepare := fun _ _ _ => 0
    inode_newsize_ok := fun _ _ => 0
    notify_change := fun s _ _ => (res, prim s) }

/-- A concurrent task unhashes the lower entry `d`. -/
def ex_unhash (d : Ptr) (s : Store) : Store :=
  { s with dentries := upd s.dentries d { s.dentries d with unhashed := true } }

/-- The lower entry `d` gets the flags `flags`. -/
def ex_set_flags (d : Ptr) (flags : Nat) (s : Store) : Store :=
  { s with dentries := upd s.dentries d { s.dentries d with d_flags := flags } }

/-- An interposition that attaches to the virtual entry the virtual inode of the
lower inode (its address minus `100`). -/
def ex_interpose (u : Shadow) (s : Store) (dentry : Ptr) (lower_path : Path) : Shadow :=
  { u with
    dentries := upd u.dentries dentry
      ({ u.dentries dentry with d_inode := (s.dentries lower_path.dentry).d_inode - 100 }) }

/-- An environment like `ex_env` whose interposition succeeds and attaches the inode. -/
def ex_env_attach (res : Int) (prim : Store → Store) : Env :=
  { (ex_env id 0 res prim 0) with
    wrapfs_interpose := fun u s dentry _ lower_path => (0, ex_interpose u s dentry lower_path) }

/-- The lower link of `111` as `113`: the lower entry `113` becomes positive on the
inode `102`, whose link count becomes 2, and the lower directory `103` gets a new
time and size. -/
def ex_link_done (s : Store) : Store :=
  { inodes := upd (upd s.inodes 102 { s.inodes 102 with i_nlink := 2 }) 103 (ex_inode 8200 30 2)
    dentries := upd s.dentries 113 { s.dentries 113 with d_inode := 102 } }

/-- The lower create of `113`: the lower entry `113` becomes positive on the new inode
`104`, and the lower directory `103` gets a new time and size. -/
def ex_create_done (s : Store) : Store :=
  { inodes := upd (upd s.inodes 104 (ex_inode 0 30 1)) 103 (ex_inode 8200 30 2)
    dentries := upd s.dentries 113 { s.dentries 113 with d_inode := 104 } }

/-- The lower removal of `111`: the lower directory `101` gets a new time and size. -/
def ex_remove_done (s : Store) : Store :=
  { s with inodes := upd s.inodes 101 (ex_inode 8100 30 2) }

/-- A request with the mask `valid`, the size `size`, the mode `0o644` and the file `7`. -/
def ex_iattr (valid size : Nat) : Iattr :=
  { (default : Iattr) with ia_valid := valid, ia_size := size, ia_mode := 420, ia_file := 7 }

/-- The namespace `ex_world` in which the lower inode `102` has the flags `opflags`. -/
def ex_world_opflags (opflags : Nat) : World :=
  { ex_world with
    lower := { ex_lower with
      inodes := upd ex_lower.inodes 102 { ex_lower.inodes 102 with i_opflags := opflags } } }

/-- Extended-attribute primitives that return `res` and leave the lower store alone. -/
def ex_xattr_env (res : Int) : XattrEnv :=
  { vfs_setxattr := fun s _ _ _ _ _ => (res, s)
    vfs_getxattr := fun s _ _ _ _ => (res, s)
    vfs_listxattr := fun s _ _ _ => (res, s)
    vfs_removexattr := fun s _ _ => (res, s) }

/-- A shared descriptor at `50` that maps the virtual file `7`, whose lower file is
`107` and whose lower operations are at `60`. -/
def ex_map_world : MapWorld :=
  { vmas := fun p =>
      if p = 50 then
        { (default : VmAreaStruct) with vm_start := 4096, vm_end := 8192, vm_file := 7 }
      else default
    lower_file := fun f => f + 100
    lower_vm_ops := fun f => if f = 7 then 60 else 0
    trace := [] }

/-- Lower handlers that return `ret`, set the page of the request and leave the
descriptors alone; `mkwrite` tells whether `page_mkwrite` is present. -/
def ex_map_env (ret : Nat) (mkwrite : Bool) : MapEnv :=
  { fault := fun _ vmas lv vmf =>
      { ret := ret, vmas := vmas, vma := lv, vmf := { vmf with page := 77 } }
    page_mkwrite := fun _ vmas lv vmf =>
      { ret := ret, vmas := vmas, vma := lv, vmf := { vmf with page := 77 } }
    has_page_mkwrite := fun _ => mkwrite }

/-- A fault request on the descriptor `50`. -/
def ex_vmf : VmFault :=
  { (default : VmFault) with vma := 50, address := 5000 }

/-! ## Theorems -/

/-! ### How the helpers act on the components of the world -/

@[simp] theorem emit_upper (w : World) (e : Event) : (emit w e).upper = w.upper := rfl

@[simp] theorem emit_lower (w : World) (e : Event) : (emit w e).lower = w.lower := rfl

@[simp] theorem emit_trace (w : World) (e : Event) : (emit w e).trace = w.trace ++ [e] := rfl

@[simp] theorem modify_inode_lower (w : World) (i : Ptr) (f : Inode → Inode) :
    (modify_inode w i f).lower = w.lower := rfl

@[simp] theorem modify_inode_trace (w : World) (i : Ptr) (f : Inode → Inode) :
    (modify_inode w i f).trace = w.trace := rfl

@[simp] theorem modify_inode_dentries (w : World) (i : Ptr) (f : Inode → Inode) :
    (modify_inode w i f).upper.dentries = w.upper.dentries := rfl

@[simp] theorem modify_inode_lower_inode (w : World) (i : Ptr) (f : Inode → Inode) :
    (modify_inode w i f).upper.lower_inode = w.upper.lower_inode := rfl

@[simp] theorem modify_inode_lower_path (w : World) (i : Ptr) (f : Inode → Inode) :
    (modify_inode w i f).upper.lower_path = w.upper.lower_path := rfl

@[simp] theorem modify_inode_lower_file (w : World) (i : Ptr) (f : Inode → Inode) :
    (modify_inode w i f).upper.lower_file = w.upper.lower_file := rfl

@[simp] theorem modify_inode_i_atime (w : World) (i : Ptr) (f : Inode → Inode) (q : Ptr) :
    ((modify_inode w i f).upper.inodes q).i_atime =
      if q = i then (f (w.upper.inodes i)).i_atime else (w.upper.inodes q).i_atime := by
  simp only [modify_inode, upd]; split_ifs <;> rfl

@[simp] theorem modify_inode_i_mtime (w : World) (i : Ptr) (f : Inode → Inode) (q : Ptr) :
    ((modify_inode w i f).upper.inodes q).i_mtime =
      if q = i then (f (w.upper.inodes i)).i_mtime else (w.upper.inodes q).i_mtime := by
  simp only [modify_inode, upd]; split_ifs <;> rfl

@[simp] theorem modify_inode_i_ctime (w : World) (i : Ptr) (f : Inode → Inode) (q : Ptr) :
    ((modify_inode w i f).upper.inodes q).i_ctime =
      if q = i then (f (w.upper.inodes i)).i_ctime else (w.upper.inodes q).i_ctime := by
  simp only [modify_inode, upd]; split_ifs <;> rfl

@[simp] theorem modify_inode_i_size (w : World) (i : Ptr) (f : Inode → Inode) (q : Ptr) :
    ((modify_inode w i f).upper.inodes q).i_size =
      if q = i then (f (w.upper.inodes i)).i_size else (w.upper.inodes q).i_size := by
  simp only [modify_inode, upd]; split_ifs <;> rfl

@[simp] theorem d_drop_inodes (w : World) (d : Ptr) : (d_drop w d).upper.inodes = w.upper.inodes :=
  rfl

@[simp] theorem d_drop_lower_inode (w : World) (d : Ptr) :
    (d_drop w d).upper.lower_inode = w.upper.lower_inode := rfl

@[simp] theorem d_drop_lower (w : World) (d : Ptr) : (d_drop w d).lower = w.lower := rfl

@[simp] theorem d_drop_trace (w : World) (d : Ptr) :
    (d_drop w d).trace = w.trace ++ [.d_drop d] := rfl


/-! ### Rejections of rename, unlink and rmdir -/

/-- C1: in a rename with flags = 0 whose post-lock validation passes, a trap equal to
the lower source entry gives -EINVAL, otherwise a trap equal to the lower target entry
gives -ENOTEMPTY; in both cases no lower primitive is called and the lower store is the
one found when the locks were taken. -/
theorem wrapfs_rename_trap_rejected (E : Env) (w : World)
    (old_dir old_dentry new_dir new_dentry : Ptr)
    (hv : rename_valid E w old_dentry new_dentry) :
    (rename_trap E w old_dentry new_dentry = lower_dentry_of w old_dentry →
      (wrapfs_rename E w old_dir old_dentry new_dir new_dentry 0).1 = -EINVAL ∧
      (∀ e ∈ log_since w (wrapfs_rename E w old_dir old_dentry new_dir new_dentry 0).2,
        is_primitive e = false) ∧
      (wrapfs_rename E w old_dir old_dentry new_dir new_dentry 0).2.lower = locked_lower E w) ∧
    (rename_trap E w old_dentry new_dentry ≠ lower_dentry_of w old_dentry →
      rename_trap E w old_dentry new_dentry = lower_dentry_of w new_dentry →
      (wrapfs_rename E w old_dir old_dentry new_dir new_dentry 0).1 = -ENOTEMPTY ∧
      (∀ e ∈ log_since w (wrapfs_rename E w old_dir old_dentry new_dir new_dentry 0).2,
        is_primitive e = false) ∧
      (wrapfs_rename E w old_dir old_dentry new_dir new_dentry 0).2.lower = locked_lower E w) := by
  obtain ⟨⟨h1, h2⟩, h3, h4⟩ := hv
  simp only [lower_dentry_of, lower_parent_of, locked_lower] at h1 h2 h3 h4
  simp only [rename_trap, lower_dentry_of, lower_parent_of, locked_lower]
  constructor
  · intro ht
    simp [wrapfs_rename, wrapfs_get_lower_path, dget_parent, lock_rename, emit,
      unlock_rename, dput, wrapfs_put_lower_path, log_since, h1, h2, h3, h4, ht, is_primitive]
  · intro ht1 ht2
    have hne : (w.upper.lower_path new_dentry).dentry ≠ (w.upper.lower_path old_dentry).dentry :=
      fun h => ht1 (ht2.trans h)
    simp [wrapfs_rename, wrapfs_get_lower_path, dget_parent, lock_rename, emit,
      unlock_rename, dput, wrapfs_put_lower_path, log_since, h1, h2, h3, h4, hne, ht2,
      is_primitive]

theorem wrapfs_rename_trap_rejected_witness :
    (wrapfs_rename (ex_env id 111 0 id 0) ex_world 1 11 3 13 0).1 = -EINVAL ∧
    (wrapfs_rename (ex_env id 113 0 id 0) ex_world 1 11 3 13 0).1 = -ENOTEMPTY :=
  ⟨((wrapfs_rename_trap_rejected (ex_env id 111 0 id 0) ex_world 1 11 3 13
      ⟨⟨rfl, rfl⟩, rfl, rfl⟩).1 rfl).1,
   ((wrapfs_rename_trap_rejected (ex_env id 113 0 id 0) ex_world 1 11 3 13
      ⟨⟨rfl, rfl⟩, rfl, rfl⟩).2 (by decide) rfl).1⟩

/-- C2: when the post-lock validation of an unlink passes and the lower unlink
primitive returns r, wrapfs_unlink returns 0 exactly when r = 0 or (r = -EBUSY and the
lower entry carries DCACHE_NFSFS_RENAMED), and returns r in every other case. -/
theorem wrapfs_unlink_result (E : Env) (w : World) (dir dentry : Ptr)
    (hv : entry_valid E w dentry) :
    ((wrapfs_unlink E w dir dentry).1 = 0 ↔
      ((unlink_primitive E w dir dentry).1 = 0 ∨
        ((unlink_primitive E w dir dentry).1 = -EBUSY ∧
          nfs_renamed (unlink_primitive E w dir dentry).2 (lower_dentry_of w dentry)))) ∧
    (¬ ((unlink_primitive E w dir dentry).1 = 0 ∨
        ((unlink_primitive E w dir dentry).1 = -EBUSY ∧
          nfs_renamed (unlink_primitive E w dir dentry).2 (lower_dentry_of w dentry))) →
      (wrapfs_unlink E w dir dentry).1 = (unlink_primitive E w dir dentry).1) := by
  obtain ⟨h1, h2⟩ := hv
  simp only [lower_dentry_of, lower_parent_of, locked_lower] at h1 h2
  simp only [unlink_primitive, nfs_renamed, lower_dentry_of, locked_lower, wrapfs_unlink,
    wrapfs_get_lower_path, lock_parent, dget, emit, wrapfs_lower_inode, vfs_unlink, h1, h2]
  simp
  split_ifs <;> simp_all

theorem wrapfs_unlink_result_witness :
    (wrapfs_unlink (ex_env id 0 (-EBUSY) (ex_set_flags 111 DCACHE_NFSFS_RENAMED) 0)
        ex_world 1 11).1 = 0 ∧
    (wrapfs_unlink (ex_env id 0 (-EBUSY) id 0) ex_world 1 11).1 = -EBUSY :=
  ⟨(wrapfs_unlink_result (ex_env id 0 (-EBUSY) (ex_set_flags 111 DCACHE_NFSFS_RENAMED) 0)
      ex_world 1 11 ⟨rfl, rfl⟩).1.2 (Or.inr ⟨rfl, by decide⟩),
   (wrapfs_unlink_result (ex_env id 0 (-EBUSY) id 0) ex_world 1 11 ⟨rfl, rfl⟩).2 (by decide)⟩

/-- C3: when the post-lock validation fails (a lower entry's parent pointer is not the
locked lower directory, or the lower entry is unhashed), each of unlink, rmdir and rename
(flags = 0) returns -EINVAL, calls no lower primitive (the lower store is the one found
when the locks were taken) and leaves every object of the virtual layer unchanged. -/
theorem race_detected_after_locking (E : Env) (w : World)
    (dir dentry old_dir old_dentry new_dir new_dentry : Ptr) :
    (¬ entry_valid E w dentry →
      (wrapfs_unlink E w dir dentry).1 = -EINVAL ∧
      (∀ e ∈ log_since w (wrapfs_unlink E w dir dentry).2, is_primitive e = false) ∧
      (wrapfs_unlink E w dir dentry).2.lower = locked_lower E w ∧
      (wrapfs_unlink E w dir dentry).2.upper = w.upper) ∧
    (¬ entry_valid E w dentry →
      (wrapfs_rmdir E w dir dentry).1 = -EINVAL ∧
      (∀ e ∈ log_since w (wrapfs_rmdir E w dir dentry).2, is_primitive e = false) ∧
      (wrapfs_rmdir E w dir dentry).2.lower = locked_lower E w ∧
      (wrapfs_rmdir E w dir dentry).2.upper = w.upper) ∧
    (¬ rename_valid E w old_dentry new_dentry →
      (wrapfs_rename E w old_dir old_dentry new_dir new_dentry 0).1 = -EINVAL ∧
      (∀ e ∈ log_since w (wrapfs_rename E w old_dir old_dentry new_dir new_dentry 0).2,
        is_primitive e = false) ∧
      (wrapfs_rename E w old_dir old_dentry new_dir new_dentry 0).2.lower = locked_lower E w ∧
      (wrapfs_rename E w old_dir old_dentry new_dir new_dentry 0).2.upper = w.upper) := by
  refine ⟨?_, ?_, ?_⟩
  · intro hv
    have hc : ((E.lock_wait w.lower).dentries (w.upper.lower_path dentry).dentry).d_parent ≠
          (w.lower.dentries (w.upper.lower_path dentry).dentry).d_parent ∨
        ((E.lock_wait w.lower).dentries (w.upper.lower_path dentry).dentry).unhashed = true := by
      simp only [entry_valid, lower_dentry_of, lower_parent_of, locked_lower] at hv
      by_cases h : ((E.lock_wait w.lower).dentries (w.upper.lower_path dentry).dentry).d_parent =
          (w.lower.dentries (w.upper.lower_path dentry).dentry).d_parent
      · right
        simpa [h] using hv
      · left
        exact h
    simp [wrapfs_unlink, wrapfs_get_lower_path, lock_parent, dget, emit, unlock_dir, dput,
      wrapfs_put_lower_path, log_since, locked_lower, is_primitive, hc]
  · intro hv
    have hc : ((E.lock_wait w.lower).dentries (w.upper.lower_path dentry).dentry).d_parent ≠
          (w.lower.dentries (w.upper.lower_path dentry).dentry).d_parent ∨
        ((E.lock_wait w.lower).dentries (w.upper.lower_path dentry).dentry).unhashed = true := by
      simp only [entry_valid, lower_dentry_of, lower_parent_of, locked_lower] at hv
      by_cases h : ((E.lock_wait w.lower).dentries (w.upper.lower_path dentry).dentry).d_parent =
          (w.lower.dentries (w.upper.lower_path dentry).dentry).d_parent
      · right
        simpa [h] using hv
      · left
        exact h
    simp [wrapfs_rmdir, wrapfs_get_lower_path, lock_parent, emit, unlock_dir,
      wrapfs_put_lower_path, log_since, locked_lower, is_primitive, hc]
  · intro hv
    simp only [rename_valid, entry_valid, lower_dentry_of, lower_parent_of, locked_lower] at hv
    by_cases hA1 : ((E.lock_wait w.lower).dentries (w.upper.lower_path old_dentry).dentry).d_parent =
        (w.lower.dentries (w.upper.lower_path old_dentry).dentry).d_parent
    · by_cases hA2 :
          ((E.lock_wait w.lower).dentries (w.upper.lower_path new_dentry).dentry).d_parent =
            (w.lower.dentries (w.upper.lower_path new_dentry).dentry).d_parent
      · have hB : ((E.lock_wait w.lower).dentries (w.upper.lower_path old_dentry).dentry).unhashed
              = true ∨
            ((E.lock_wait w.lower).dentries (w.upper.lower_path new_dentry).dentry).unhashed
              = true := by
          by_contra hn
          simp only [not_or, Bool.not_eq_true] at hn
          exact hv ⟨⟨hA1, hn.1⟩, hA2, hn.2⟩
        simp [wrapfs_rename, wrapfs_get_lower_path, dget_parent, lock_rename, emit,
          unlock_rename, dput, wrapfs_put_lower_path, log_since, locked_lower, is_primitive,
          hA1, hA2, hB]
      · simp [wrapfs_rename, wrapfs_get_lower_path, dget_parent, lock_rename, emit,
          unlock_rename, dput, wrapfs_put_lower_path, log_since, locked_lower, is_primitive,
          hA1, hA2]
    · simp [wrapfs_rename, wrapfs_get_lower_path, dget_parent, lock_rename, emit,
        unlock_rename, dput, wrapfs_put_lower_path, log_since, locked_lower, is_primitive,
        hA1]

theorem race_detected_after_locking_witness :
    (wrapfs_unlink (ex_env (ex_unhash 111) 0 0 id 0) ex_world 1 11).1 = -EINVAL ∧
    (wrapfs_rmdir (ex_env (ex_unhash 111) 0 0 id 0) ex_world 1 11).1 = -EINVAL ∧
    (wrapfs_rename (ex_env (ex_unhash 111) 0 0 id 0) ex_world 1 11 3 13 0).1 = -EINVAL :=
  ⟨((race_detected_after_locking (ex_env (ex_unhash 111) 0 0 id 0) ex_world
      1 11 1 11 3 13).1 (by decide)).1,
   ((race_detected_after_locking (ex_env (ex_unhash 111) 0 0 id 0) ex_world
      1 11 1 11 3 13).2.1 (by decide)).1,
   ((race_detected_after_locking (ex_env (ex_unhash 111) 0 0 id 0) ex_world
      1 11 1 11 3 13).2.2 (by decide)).1⟩

/-! ### Propagation to the virtual parent directory -/

/-- C4 (the code at the failing input): a successful wrapfs_link of the entry 11 as the
entry 13 of the virtual directory 3 leaves in the virtual directory the times and size
of the lower inode of the new entry (102), not those of the lower parent directory
(103) as they are after the lower link. -/
theorem wrapfs_link_parent_attrs_from_new_entry :
    (wrapfs_link (ex_env_attach 0 ex_link_done) ex_world 11 3 13).1 = 0 ∧
    lower_parent_inode (wrapfs_link (ex_env_attach 0 ex_link_done) ex_world 11 3 13).2.lower
      ex_world 13 = 103 ∧
    ((wrapfs_link (ex_env_attach 0 ex_link_done) ex_world 11 3 13).2.lower.inodes 103).i_mtime
      = ex_time 30 ∧
    ((wrapfs_link (ex_env_attach 0 ex_link_done) ex_world 11 3 13).2.lower.inodes 103).i_size
      = 8200 ∧
    ((wrapfs_link (ex_env_attach 0 ex_link_done) ex_world 11 3 13).2.upper.inodes 3).i_mtime
      = ex_time 12 ∧
    ((wrapfs_link (ex_env_attach 0 ex_link_done) ex_world 11 3 13).2.upper.inodes 3).i_size
      = 7 ∧
    ¬ times_size_match (wrapfs_link (ex_env_attach 0 ex_link_done) ex_world 11 3 13).2 3 103 := by
  decide

/-! ### Rename with flags -/

/-- C5 as stated fails: a rename with flags = 1 does not return -EOPNOTSUPP. -/
theorem wrapfs_rename_flags_not_eopnotsupp :
    (wrapfs_rename (ex_env id 0 0 id 0) ex_world 1 11 3 13 1).1 ≠ -EOPNOTSUPP := by
  decide

/-- C5, amended: a rename whose flags argument is nonzero returns -EINVAL at once; the
world is unchanged, so no lower entry is resolved, no lock is taken and no primitive
is called. -/
theorem wrapfs_rename_flags_einval (E : Env) (w : World)
    (old_dir old_dentry new_dir new_dentry : Ptr) (flags : Nat) (h : flags ≠ 0) :
    wrapfs_rename E w old_dir old_dentry new_dir new_dentry flags = (-EINVAL, w) ∧
    log_since w (wrapfs_rename E w old_dir old_dentry new_dir new_dentry flags).2 = [] := by
  simp [wrapfs_rename, h, log_since]

theorem wrapfs_rename_flags_einval_witness :
    wrapfs_rename (ex_env id 0 0 id 0) ex_world 1 11 3 13 1 = (-EINVAL, ex_world) ∧
    log_since ex_world (wrapfs_rename (ex_env id 0 0 id 0) ex_world 1 11 3 13 1).2 = [] :=
  wrapfs_rename_flags_einval (ex_env id 0 0 id 0) ex_world 1 11 3 13 1 (by decide)

/-! ### Propagation on the operations other than link -/

/-- Supporting C4: on the six operations other than link, a successful call leaves in
the virtual parent directory the times and size that the lower parent directory's inode
has after the lower primitive ran (the lower inode of the virtual directory being the
inode of the locked lower parent directory). -/
theorem parent_attrs_propagated_except_link (E : Env) (w : World) (dir dentry : Ptr)
    (mode dev : Nat) (want_excl : Bool) (symname : String) :
    ((wrapfs_create E w dir dentry mode want_excl).1 = 0 →
      (wrapfs_create E w dir dentry mode want_excl).2.upper.lower_inode dir =
        lower_parent_inode (wrapfs_create E w dir dentry mode want_excl).2.lower w dentry →
      (wrapfs_create E w dir dentry mode want_excl).2.lower =
        (create_primitive E w dentry mode want_excl).2 ∧
      times_size_match (wrapfs_create E w dir dentry mode want_excl).2 dir
        (lower_parent_inode (wrapfs_create E w dir dentry mode want_excl).2.lower w dentry)) ∧
    ((wrapfs_symlink E w dir dentry symname).1 = 0 →
      (wrapfs_symlink E w dir dentry symname).2.upper.lower_inode dir =
        lower_parent_inode (wrapfs_symlink E w dir dentry symname).2.lower w dentry →
      (wrapfs_symlink E w dir dentry symname).2.lower =
        (symlink_primitive E w dentry symname).2 ∧
      times_size_match (wrapfs_symlink E w dir dentry symname).2 dir
        (lower_parent_inode (wrapfs_symlink E w dir dentry symname).2.lower w dentry)) ∧
    ((wrapfs_mkdir E w dir dentry mode).1 = 0 →
      (wrapfs_mkdir E w dir dentry mode).2.upper.lower_inode dir =
        lower_parent_inode (wrapfs_mkdir E w dir dentry mode).2.lower w dentry →
      (wrapfs_mkdir E w dir dentry mode).2.lower = (mkdir_primitive E w dentry mode).2 ∧
      times_size_match (wrapfs_mkdir E w dir dentry mode).2 dir
        (lower_parent_inode (wrapfs_mkdir E w dir dentry mode).2.lower w dentry)) ∧
    ((wrapfs_mknod E w dir dentry mode dev).1 = 0 →
      (wrapfs_mknod E w dir dentry mode dev).2.upper.lower_inode dir =
        lower_parent_inode (wrapfs_mknod E w dir dentry mode dev).2.lower w dentry →
      (wrapfs_mknod E w dir dentry mode dev).2.lower = (mknod_primitive E w dentry mode dev).2 ∧
      times_size_match (wrapfs_mknod E w dir dentry mode dev).2 dir
        (lower_parent_inode (wrapfs_mknod E w dir dentry mode dev).2.lower w dentry)) ∧
    ((wrapfs_unlink E w dir dentry).1 = 0 →
      (wrapfs_unlink E w dir dentry).2.upper.lower_inode dir =
        lower_parent_inode (wrapfs_unlink E w dir dentry).2.lower w dentry →
      (wrapfs_unlink E w dir dentry).2.lower = (unlink_primitive E w dir dentry).2 ∧
      times_size_match (wrapfs_unlink E w dir dentry).2 dir
        (lower_parent_inode (wrapfs_unlink E w dir dentry).2.lower w dentry)) ∧
    ((wrapfs_rmdir E w dir dentry).1 = 0 →
      (wrapfs_rmdir E w dir dentry).2.lower = (rmdir_primitive E w dentry).2 ∧
      times_size_match (wrapfs_rmdir E w dir dentry).2 dir
        (lower_parent_inode (wrapfs_rmdir E w dir dentry).2.lower w dentry)) := by
  refine ⟨?_, ?_, ?_, ?_, ?_, ?_⟩
  · simp only [wrapfs_create, wrapfs_get_lower_path, lock_parent, vfs_create, wrapfs_interpose,
      emit, unlock_dir, wrapfs_put_lower_path, fsstack_copy_attr_times, fsstack_copy_inode_size,
      modify_inode, wrapfs_lower_inode, create_primitive, lower_parent_inode, lower_parent_of,
      lower_dentry_of, locked_lower, times_size_match]
    split_ifs with h1 h2
    · intro h; exact absurd h h1
    · intro h; exact absurd h h2
    · intro _ hc
      simp only [upd] at hc ⊢
      simp [hc]
  · simp only [wrapfs_symlink, wrapfs_get_lower_path, lock_parent, vfs_symlink,
      wrapfs_interpose, emit, unlock_dir, wrapfs_put_lower_path, fsstack_copy_attr_times,
      fsstack_copy_inode_size, modify_inode, wrapfs_lower_inode, symlink_primitive,
      lower_parent_inode, lower_parent_of, lower_dentry_of, locked_lower, times_size_match]
    split_ifs with h1 h2
    · intro h; exact absurd h h1
    · intro h; exact absurd h h2
    · intro _ hc
      simp only [upd] at hc ⊢
      simp [hc]
  · simp only [wrapfs_mkdir, wrapfs_get_lower_path, lock_parent, vfs_mkdir, wrapfs_interpose,
      emit, unlock_dir, wrapfs_put_lower_path, fsstack_copy_attr_times, fsstack_copy_inode_size,
      set_nlink, modify_inode, wrapfs_lower_inode, mkdir_primitive, lower_parent_inode,
      lower_parent_of, lower_dentry_of, locked_lower, times_size_match]
    split_ifs with h1 h2
    · intro h; exact absurd h h1
    · intro h; exact absurd h h2
    · intro _ hc
      simp only [upd] at hc ⊢
      simp [hc]
  · simp only [wrapfs_mknod, wrapfs_get_lower_path, lock_parent, vfs_mknod, wrapfs_interpose,
      emit, unlock_dir, wrapfs_put_lower_path, fsstack_copy_attr_times, fsstack_copy_inode_size,
      modify_inode, wrapfs_lower_inode, mknod_primitive, lower_parent_inode, lower_parent_of,
      lower_dentry_of, locked_lower, times_size_match]
    split_ifs with h1 h2
    · intro h; exact absurd h h1
    · intro h; exact absurd h h2
    · intro _ hc
      simp only [upd] at hc ⊢
      simp [hc]
  · simp only [wrapfs_unlink]
    split_ifs with h1 h2 h3 h4
    · intro h; simp [EINVAL] at h
    · intro h; exact absurd h h3
    · intro hx
      clear hx h1 h2 h3
      simp only [wrapfs_put_lower_path, dput, unlock_dir, times_size_match, emit_upper,
        emit_lower, d_drop_inodes, d_drop_lower, d_drop_lower_inode, set_nlink,
        fsstack_copy_inode_size, fsstack_copy_attr_times, modify_inode_lower,
        modify_inode_i_atime, modify_inode_i_mtime, modify_inode_i_ctime, modify_inode_i_size,
        modify_inode_dentries, modify_inode_lower_inode, wrapfs_lower_inode, vfs_unlink,
        lock_parent, dget, wrapfs_get_lower_path, unlink_primitive, lower_parent_inode,
        lower_parent_of, lower_dentry_of, locked_lower]
      intro hc
      refine ⟨trivial, ?_⟩
      rw [← hc]
      clear hc
      refine ⟨?_, ?_, ?_, ?_⟩ <;> split_ifs <;> simp_all
    · intro h; exact absurd h h4
    · intro hx
      clear hx h1 h2 h4
      simp only [wrapfs_put_lower_path, dput, unlock_dir, times_size_match, emit_upper,
        emit_lower, d_drop_inodes, d_drop_lower, d_drop_lower_inode, set_nlink,
        fsstack_copy_inode_size, fsstack_copy_attr_times, modify_inode_lower,
        modify_inode_i_atime, modify_inode_i_mtime, modify_inode_i_ctime, modify_inode_i_size,
        modify_inode_dentries, modify_inode_lower_inode, wrapfs_lower_inode, vfs_unlink,
        lock_parent, dget, wrapfs_get_lower_path, unlink_primitive, lower_parent_inode,
        lower_parent_of, lower_dentry_of, locked_lower]
      intro hc
      refine ⟨trivial, ?_⟩
      rw [← hc]
      clear hc
      refine ⟨?_, ?_, ?_, ?_⟩ <;> split_ifs <;> simp_all
  · simp only [wrapfs_rmdir, wrapfs_get_lower_path, lock_parent, vfs_rmdir, emit,
      unlock_dir, wrapfs_put_lower_path, fsstack_copy_attr_times, fsstack_copy_inode_size,
      set_nlink, clear_nlink, d_drop, modify_inode, rmdir_primitive, lower_parent_inode,
      lower_parent_of, lower_dentry_of, locked_lower, times_size_match]
    split_ifs with h1 h2 h3
    · intro h; simp [EINVAL] at h
    · intro h; exact absurd h h2
    · intro _
      simp [upd]
    · intro _
      simp [upd]

/-! ### Errors of the lower primitive -/

/-- C6: when the lower primitive of create, link, symlink, mkdir, mknod or rmdir (after
a passed validation) returns a nonzero error, the operation returns that error, neither
interposes nor drops the virtual entry, and leaves every object of the virtual layer,
hence all cached times, sizes and link counts, unchanged. -/
theorem lower_error_forwarded (E : Env) (w : World) (dir dentry old_dentry : Ptr)
    (mode dev : Nat) (want_excl : Bool) (symname : String) :
    ((create_primitive E w dentry mode want_excl).1 ≠ 0 →
      (wrapfs_create E w dir dentry mode want_excl).1 = (create_primitive E w dentry mode want_excl).1 ∧
      (∀ e ∈ log_since w (wrapfs_create E w dir dentry mode want_excl).2, is_interpose e = false ∧ is_d_drop e = false) ∧
      (wrapfs_create E w dir dentry mode want_excl).2.upper = w.upper) ∧
    ((link_primitive E w old_dentry dentry).1 ≠ 0 →
      (wrapfs_link E w old_dentry dir dentry).1 = (link_primitive E w old_dentry dentry).1 ∧
      (∀ e ∈ log_since w (wrapfs_link E w old_dentry dir dentry).2, is_interpose e = false ∧ is_d_drop e = false) ∧
      (wrapfs_link E w old_dentry dir dentry).2.upper = w.upper) ∧
    ((symlink_primitive E w dentry symname).1 ≠ 0 →
      (wrapfs_symlink E w dir dentry symname).1 = (symlink_primitive E w dentry symname).1 ∧
      (∀ e ∈ log_since w (wrapfs_symlink E w dir dentry symname).2, is_interpose e = false ∧ is_d_drop e = false) ∧
      (wrapfs_symlink E w dir dentry symname).2.upper = w.upper) ∧
    ((mkdir_primitive E w dentry mode).1 ≠ 0 →
      (wrapfs_mkdir E w dir dentry mode).1 = (mkdir_primitive E w dentry mode).1 ∧
      (∀ e ∈ log_since w (wrapfs_mkdir E w dir dentry mode).2, is_interpose e = false ∧ is_d_drop e = false) ∧
      (wrapfs_mkdir E w dir dentry mode).2.upper = w.upper) ∧
    ((mknod_primitive E w dentry mode dev).1 ≠ 0 →
      (wrapfs_mknod E w dir dentry mode dev).1 = (mknod_primitive E w dentry mode dev).1 ∧
      (∀ e ∈ log_since w (wrapfs_mknod E w dir dentry mode dev).2, is_interpose e = false ∧ is_d_drop e = false) ∧
      (wrapfs_mknod E w dir dentry mode dev).2.upper = w.upper) ∧
    (entry_valid E w dentry → (rmdir_primitive E w dentry).1 ≠ 0 →
      (wrapfs_rmdir E w dir dentry).1 = (rmdir_primitive E w dentry).1 ∧
      (∀ e ∈ log_since w (wrapfs_rmdir E w dir dentry).2, is_interpose e = false ∧ is_d_drop e = false) ∧
      (wrapfs_rmdir E w dir dentry).2.upper = w.upper) := by
  refine ⟨?_, ?_, ?_, ?_, ?_, ?_⟩
  · intro h
    simp only [create_primitive, lower_parent_inode, lower_parent_of, lower_dentry_of, locked_lower] at h
    simp [wrapfs_create, vfs_create, create_primitive, wrapfs_get_lower_path, lock_parent, emit, unlock_dir, wrapfs_put_lower_path,
      log_since, lower_parent_inode, lower_parent_of, lower_dentry_of, locked_lower,
      is_interpose, is_d_drop, h]
  · intro h
    simp only [link_primitive, lower_parent_inode, lower_parent_of, lower_dentry_of, locked_lower] at h
    simp [wrapfs_link, vfs_link, link_primitive, wrapfs_get_lower_path, lock_parent, emit, unlock_dir, wrapfs_put_lower_path,
      log_since, lower_parent_inode, lower_parent_of, lower_dentry_of, locked_lower,
      is_interpose, is_d_drop, h]
  · intro h
    simp only [symlink_primitive, lower_parent_inode, lower_parent_of, lower_dentry_of, locked_lower] at h
    simp [wrapfs_symlink, vfs_symlink, symlink_primitive, wrapfs_get_lower_path, lock_parent, emit, unlock_dir, wrapfs_put_lower_path,
      log_since, lower_parent_inode, lower_parent_of, lower_dentry_of, locked_lower,
      is_interpose, is_d_drop, h]
  · intro h
    simp only [mkdir_primitive, lower_parent_inode, lower_parent_of, lower_dentry_of, locked_lower] at h
    simp [wrapfs_mkdir, vfs_mkdir, mkdir_primitive, wrapfs_get_lower_path, lock_parent, emit, unlock_dir, wrapfs_put_lower_path,
      log_since, lower_parent_inode, lower_parent_of, lower_dentry_of, locked_lower,
      is_interpose, is_d_drop, h]
  · intro h
    simp only [mknod_primitive, lower_parent_inode, lower_parent_of, lower_dentry_of, locked_lower] at h
    simp [wrapfs_mknod, vfs_mknod, mknod_primitive, wrapfs_get_lower_path, lock_parent, emit, unlock_dir, wrapfs_put_lower_path,
      log_since, lower_parent_inode, lower_parent_of, lower_dentry_of, locked_lower,
      is_interpose, is_d_drop, h]
  · intro hv h
    obtain ⟨h1, h2⟩ := hv
    simp only [lower_parent_of, lower_dentry_of, locked_lower] at h1 h2
    simp only [rmdir_primitive, lower_parent_inode, lower_parent_of, lower_dentry_of,
      locked_lower] at h
    simp [wrapfs_rmdir, vfs_rmdir, rmdir_primitive, wrapfs_get_lower_path, lock_parent, emit, unlock_dir, wrapfs_put_lower_path,
      log_since, lower_parent_inode, lower_parent_of, lower_dentry_of, locked_lower,
      is_interpose, is_d_drop, h, h1, h2]

theorem lower_error_forwarded_witness :
    (wrapfs_create (ex_env id 0 (-5) id 0) ex_world 3 13 0 false).1 = -5 ∧
    (wrapfs_link (ex_env id 0 (-5) id 0) ex_world 11 3 13).1 = -5 ∧
    (wrapfs_symlink (ex_env id 0 (-5) id 0) ex_world 3 13 "t").1 = -5 ∧
    (wrapfs_mkdir (ex_env id 0 (-5) id 0) ex_world 3 13 0).1 = -5 ∧
    (wrapfs_mknod (ex_env id 0 (-5) id 0) ex_world 3 13 0 0).1 = -5 ∧
    (wrapfs_rmdir (ex_env id 0 (-5) id 0) ex_world 3 13).1 = -5 :=
  ⟨((lower_error_forwarded (ex_env id 0 (-5) id 0) ex_world 3 13 11 0 0 false "t").1
      (by decide)).1,
   ((lower_error_forwarded (ex_env id 0 (-5) id 0) ex_world 3 13 11 0 0 false "t").2.1
      (by decide)).1,
   ((lower_error_forwarded (ex_env id 0 (-5) id 0) ex_world 3 13 11 0 0 false "t").2.2.1
      (by decide)).1,
   ((lower_error_forwarded (ex_env id 0 (-5) id 0) ex_world 3 13 11 0 0 false "t").2.2.2.1
      (by decide)).1,
   ((lower_error_forwarded (ex_env id 0 (-5) id 0) ex_world 3 13 11 0 0 false "t").2.2.2.2.1
      (by decide)).1,
   ((lower_error_forwarded (ex_env id 0 (-5) id 0) ex_world 3 13 11 0 0 false "t").2.2.2.2.2
      (by decide) (by decide)).1⟩

/-! ### Resource accounting -/

theorem released_not_acquired (e : Event) (r : Resource) (h : released e = some r) :
    acquired e = none := by
  cases e <;> simp_all [released, acquired]

theorem foldl_track_step_none (t : List Event) : t.foldl track_step none = none := by
  induction t with
  | nil => rfl
  | cons e t ih => simpa [List.foldl_cons, track_step] using ih

theorem track_counts (t : List Event) :
    ∀ (h h2 : List Resource), t.foldl track_step (some h) = some h2 →
      ∀ r, h.count r + acquisitions r t = h2.count r + releases r t := by
  induction t with
  | nil =>
    intro h h2 hf r
    simp only [List.foldl_nil, Option.some.injEq] at hf
    simp [acquisitions, releases, hf]
  | cons e t ih =>
    intro h h2 hf r
    rw [List.foldl_cons] at hf
    cases hrel : released e with
    | some x =>
      have hacq := released_not_acquired e x hrel
      by_cases hx : x ∈ h
      · simp only [track_step, hrel, hx, if_true] at hf
        have := ih _ _ hf r
        have hpos : 0 < h.count x := List.count_pos_iff.mpr hx
        simp only [acquisitions, releases, List.countP_cons, hacq, hrel, Option.some.injEq,
          List.count_erase] at this ⊢
        by_cases hxr : x = r
        · subst hxr
          simp at this ⊢
          omega
        · have hrx : ¬ r = x := fun h => hxr h.symm
          simp [hxr, hrx] at this ⊢
          omega
      · simp only [track_step, hrel, hx, if_false] at hf
        rw [foldl_track_step_none] at hf
        cases hf
    | none =>
      cases hacq : acquired e with
      | some x =>
        simp only [track_step, hrel, hacq] at hf
        have := ih _ _ hf r
        simp only [acquisitions, releases, List.countP_cons, hacq, hrel, Option.some.injEq,
          List.count_cons] at this ⊢
        by_cases hxr : x = r
        · subst hxr
          simp at this ⊢
          omega
        · simp [hxr] at this ⊢
          omega
      | none =>
        simp only [track_step, hrel, hacq] at hf
        have := ih _ _ hf r
        simp only [acquisitions, releases, List.countP_cons, hacq, hrel] at this ⊢
        simpa using this

/-- In a balanced trace every resource is released exactly as often as it is acquired. -/
theorem balanced_counts (t : List Event) (h : balanced t) (r : Resource) :
    acquisitions r t = releases r t := by
  have := track_counts t [] [] h r
  simpa using this

/-! ### Resources of the structural operations -/

theorem wrapfs_create_balanced (E : Env) (w : World) (dir dentry : Ptr) (mode : Nat) (want_excl : Bool) :
    balanced (log_since w (wrapfs_create E w dir dentry mode want_excl).2) := by
  simp only [wrapfs_create]
  split_ifs <;>
  simp only [wrapfs_get_lower_path, lock_parent, unlock_dir, wrapfs_put_lower_path,
    vfs_create, wrapfs_interpose, fsstack_copy_attr_times, fsstack_copy_inode_size,
    emit_trace, emit_lower, emit_upper, modify_inode_trace, modify_inode_lower,
    d_drop_trace, d_drop_lower, List.append_assoc, List.singleton_append, List.cons_append,
    List.nil_append, List.drop_left, List.drop_length, log_since] <;>
  simp [balanced, track, track_step, acquired, released, List.erase_cons]

theorem wrapfs_symlink_balanced (E : Env) (w : World) (dir dentry : Ptr) (symname : String) :
    balanced (log_since w (wrapfs_symlink E w dir dentry symname).2) := by
  simp only [wrapfs_symlink]
  split_ifs <;>
  simp only [wrapfs_get_lower_path, lock_parent, unlock_dir, wrapfs_put_lower_path,
    vfs_symlink, wrapfs_interpose, fsstack_copy_attr_times, fsstack_copy_inode_size,
    emit_trace, emit_lower, emit_upper, modify_inode_trace, modify_inode_lower,
    d_drop_trace, d_drop_lower, List.append_assoc, List.singleton_append, List.cons_append,
    List.nil_append, List.drop_left, List.drop_length, log_since] <;>
  simp [balanced, track, track_step, acquired, released, List.erase_cons]

theorem wrapfs_mkdir_balanced (E : Env) (w : World) (dir dentry : Ptr) (mode : Nat) :
    balanced (log_since w (wrapfs_mkdir E w dir dentry mode).2) := by
  simp only [wrapfs_mkdir]
  split_ifs <;>
  simp only [wrapfs_get_lower_path, lock_parent, unlock_dir, wrapfs_put_lower_path,
    vfs_mkdir, wrapfs_interpose, fsstack_copy_attr_times, fsstack_copy_inode_size, set_nlink,
    emit_trace, emit_lower, emit_upper, modify_inode_trace, modify_inode_lower,
    d_drop_trace, d_drop_lower, List.append_assoc, List.singleton_append, List.cons_append,
    List.nil_append, List.drop_left, List.drop_length, log_since] <;>
  simp [balanced, track, track_step, acquired, released, List.erase_cons]

theorem wrapfs_rmdir_balanced (E : Env) (w : World) (dir dentry : Ptr) :
    balanced (log_since w (wrapfs_rmdir E w dir dentry).2) := by
  simp only [wrapfs_rmdir]
  split_ifs <;>
  simp only [wrapfs_get_lower_path, lock_parent, unlock_dir, wrapfs_put_lower_path,
    vfs_rmdir, fsstack_copy_attr_times, fsstack_copy_inode_size, set_nlink, clear_nlink,
    apply_ite World.trace,
    emit_trace, emit_lower, emit_upper, modify_inode_trace, modify_inode_lower,
    d_drop_trace, d_drop_lower, List.append_assoc, List.singleton_append, List.cons_append,
    List.nil_append, List.drop_left, List.drop_length, log_since] <;>
  simp [balanced, track, track_step, acquired, released, List.erase_cons]

theorem wrapfs_mknod_balanced (E : Env) (w : World) (dir dentry : Ptr) (mode dev : Nat) :
    balanced (log_since w (wrapfs_mknod E w dir dentry mode dev).2) := by
  simp only [wrapfs_mknod]
  split_ifs <;>
  simp only [wrapfs_get_lower_path, lock_parent, unlock_dir, wrapfs_put_lower_path,
    vfs_mknod, wrapfs_interpose, fsstack_copy_attr_times, fsstack_copy_inode_size,
    emit_trace, emit_lower, emit_upper, modify_inode_trace, modify_inode_lower,
    d_drop_trace, d_drop_lower, List.append_assoc, List.singleton_append, List.cons_append,
    List.nil_append, List.drop_left, List.drop_length, log_since] <;>
  simp [balanced, track, track_step, acquired, released, List.erase_cons]

theorem wrapfs_unlink_balanced (E : Env) (w : World) (dir dentry : Ptr) :
    balanced (log_since w (wrapfs_unlink E w dir dentry).2) := by
  simp only [wrapfs_unlink]
  split_ifs <;>
  simp only [wrapfs_get_lower_path, lock_parent, unlock_dir, wrapfs_put_lower_path, dget, dput,
    vfs_unlink, fsstack_copy_attr_times, fsstack_copy_inode_size, set_nlink,
    emit_trace, emit_lower, emit_upper, modify_inode_trace, modify_inode_lower,
    d_drop_trace, d_drop_lower, List.append_assoc, List.singleton_append, List.cons_append,
    List.nil_append, List.drop_left, List.drop_length, log_since] <;>
  simp [balanced, track, track_step, acquired, released, List.erase_cons]

theorem wrapfs_link_balanced (E : Env) (w : World) (old_dentry dir new_dentry : Ptr) :
    balanced (log_since w (wrapfs_link E w old_dentry dir new_dentry).2) := by
  have hp1 : (new_dentry = old_dentry ∧ True) ∨
      (new_dentry ≠ old_dentry ∧ old_dentry ≠ new_dentry) := by
    by_cases h : new_dentry = old_dentry
    · exact Or.inl ⟨h, trivial⟩
    · exact Or.inr ⟨h, fun h2 => h h2.symm⟩
  simp only [wrapfs_link]
  split_ifs <;>
  simp only [wrapfs_get_lower_path, lock_parent, unlock_dir, wrapfs_put_lower_path,
    vfs_link, wrapfs_interpose, fsstack_copy_attr_times, fsstack_copy_inode_size, set_nlink,
    i_size_write,
    emit_trace, emit_lower, emit_upper, modify_inode_trace, modify_inode_lower,
    d_drop_trace, d_drop_lower, List.append_assoc, List.singleton_append, List.cons_append,
    List.nil_append, List.drop_left, List.drop_length, log_since] <;>
  (rcases hp1 with ⟨hp, hp2⟩ | ⟨hp, hp2⟩ <;>
    simp [balanced, track, track_step, acquired, released, List.erase_cons, hp, hp2])

theorem wrapfs_rename_balanced (E : Env) (w : World)
    (old_dir old_dentry new_dir new_dentry : Ptr) (flags : Nat) :
    balanced (log_since w (wrapfs_rename E w old_dir old_dentry new_dir new_dentry flags).2) := by
  have hp1 : (new_dentry = old_dentry ∧ True) ∨
      (new_dentry ≠ old_dentry ∧ old_dentry ≠ new_dentry) := by
    by_cases h : new_dentry = old_dentry
    · exact Or.inl ⟨h, trivial⟩
    · exact Or.inr ⟨h, fun h2 => h h2.symm⟩
  have hd1 : ((w.lower.dentries (w.upper.lower_path new_dentry).dentry).d_parent =
          (w.lower.dentries (w.upper.lower_path old_dentry).dentry).d_parent ∧ True) ∨
        ((w.lower.dentries (w.upper.lower_path new_dentry).dentry).d_parent ≠
          (w.lower.dentries (w.upper.lower_path old_dentry).dentry).d_parent ∧
         (w.lower.dentries (w.upper.lower_path old_dentry).dentry).d_parent ≠
          (w.lower.dentries (w.upper.lower_path new_dentry).dentry).d_parent) := by
    by_cases h : (w.lower.dentries (w.upper.lower_path new_dentry).dentry).d_parent =
          (w.lower.dentries (w.upper.lower_path old_dentry).dentry).d_parent
    · exact Or.inl ⟨h, trivial⟩
    · exact Or.inr ⟨h, fun h2 => h h2.symm⟩
  simp only [wrapfs_rename]
  split_ifs <;>
  simp only [wrapfs_get_lower_path, lock_rename, dget_parent, dput, vfs_rename, unlock_rename,
    wrapfs_put_lower_path, fsstack_copy_attr_all, fsstack_copy_inode_size,
    emit_trace, emit_lower, emit_upper, modify_inode_trace, modify_inode_lower,
    d_drop_trace, d_drop_lower, List.append_assoc, List.singleton_append, List.cons_append,
    List.nil_append, List.drop_left, List.drop_length, log_since] <;>
  (rcases hp1 with ⟨hp, hp2⟩ | ⟨hp, hp2⟩ <;> rcases hd1 with ⟨hd, hd2⟩ | ⟨hd, hd2⟩ <;>
    simp [balanced, track, track_step, acquired, released, List.erase_cons, hp, hd, hp2, hd2])

/-- C7: on every path of create, link, unlink, symlink, mkdir, rmdir, mknod and rename,
each lower directory lock, each lower path reference and each extra entry reference that
the operation acquired is released exactly once, no release lacks its acquisition, and
nothing is held when the operation returns; a rename with nonzero flags acquires and
releases nothing. -/
theorem resources_released_exactly_once (E : Env) (w : World)
    (dir dentry old_dentry old_dir new_dir new_dentry : Ptr) (mode dev flags : Nat)
    (want_excl : Bool) (symname : String) :
    released_exactly_once (log_since w (wrapfs_create E w dir dentry mode want_excl).2) ∧
    released_exactly_once (log_since w (wrapfs_link E w old_dentry dir new_dentry).2) ∧
    released_exactly_once (log_since w (wrapfs_unlink E w dir dentry).2) ∧
    released_exactly_once (log_since w (wrapfs_symlink E w dir dentry symname).2) ∧
    released_exactly_once (log_since w (wrapfs_mkdir E w dir dentry mode).2) ∧
    released_exactly_once (log_since w (wrapfs_rmdir E w dir dentry).2) ∧
    released_exactly_once (log_since w (wrapfs_mknod E w dir dentry mode dev).2) ∧
    released_exactly_once
      (log_since w (wrapfs_rename E w old_dir old_dentry new_dir new_dentry flags).2) ∧
    (flags ≠ 0 →
      log_since w (wrapfs_rename E w old_dir old_dentry new_dir new_dentry flags).2 = []) := by
  have hc := wrapfs_create_balanced E w dir dentry mode want_excl
  have hl := wrapfs_link_balanced E w old_dentry dir new_dentry
  have hu := wrapfs_unlink_balanced E w dir dentry
  have hs := wrapfs_symlink_balanced E w dir dentry symname
  have hm := wrapfs_mkdir_balanced E w dir dentry mode
  have hr := wrapfs_rmdir_balanced E w dir dentry
  have hn := wrapfs_mknod_balanced E w dir dentry mode dev
  have hre := wrapfs_rename_balanced E w old_dir old_dentry new_dir new_dentry flags
  refine ⟨⟨hc, balanced_counts _ hc⟩, ⟨hl, balanced_counts _ hl⟩, ⟨hu, balanced_counts _ hu⟩,
    ⟨hs, balanced_counts _ hs⟩, ⟨hm, balanced_counts _ hm⟩, ⟨hr, balanced_counts _ hr⟩,
    ⟨hn, balanced_counts _ hn⟩, ⟨hre, balanced_counts _ hre⟩, ?_⟩
  intro h
  simp [wrapfs_rename, h, log_since]

theorem resources_released_exactly_once_witness :
    released_exactly_once
      (log_since ex_world (wrapfs_rename (ex_env id 0 0 id 0) ex_world 1 11 3 13 0).2) ∧
    log_since ex_world (wrapfs_rename (ex_env id 0 0 id 0) ex_world 1 11 3 13 1).2 = [] :=
  ⟨(resources_released_exactly_once (ex_env id 0 0 id 0) ex_world 3 13 11 1 3 13 0 0 0
      false "t").2.2.2.2.2.2.2.1,
   (resources_released_exactly_once (ex_env id 0 0 id 0) ex_world 3 13 11 1 3 13 0 0 1
      false "t").2.2.2.2.2.2.2.2 (by decide)⟩

/-! ### The call of the rename primitive -/

/-- What wrapfs_rename passes to the rename primitive: after a passed validation, with a
trap that is neither lower entry, the only primitive called is vfs_rename, once, with
the directories and entries that wrapfs_rename itself received, and the result of
vfs_rename is returned. -/
theorem wrapfs_rename_primitive_call (E : Env) (w : World)
    (old_dir old_dentry new_dir new_dentry : Ptr)
    (hv : rename_valid E w old_dentry new_dentry)
    (ht1 : rename_trap E w old_dentry new_dentry ≠ lower_dentry_of w old_dentry)
    (ht2 : rename_trap E w old_dentry new_dentry ≠ lower_dentry_of w new_dentry) :
    (log_since w (wrapfs_rename E w old_dir old_dentry new_dir new_dentry 0).2).filter
        (fun e => is_primitive e) =
      [Event.vfs_rename { old_dir := old_dir, old_dentry := old_dentry, new_dir := new_dir,
                          new_dentry := new_dentry, flags := 0 }] ∧
    (wrapfs_rename E w old_dir old_dentry new_dir new_dentry 0).1 =
      (E.vfs_rename (locked_lower E w)
        { old_dir := old_dir, old_dentry := old_dentry, new_dir := new_dir,
          new_dentry := new_dentry, flags := 0 }).1 := by
  obtain ⟨⟨h1, h2⟩, h3, h4⟩ := hv
  simp only [lower_dentry_of, lower_parent_of, locked_lower] at h1 h2 h3 h4
  simp only [rename_trap, lower_dentry_of, lower_parent_of, locked_lower] at ht1 ht2
  simp only [wrapfs_rename, wrapfs_get_lower_path, dget_parent, lock_rename,
    emit_lower, emit_upper, h1, h2, h3, h4, ht1, ht2, locked_lower]
  simp only [ne_eq, not_true_eq_false, if_false, Bool.false_eq_true, or_self]
  split_ifs <;>
  simp [vfs_rename, unlock_rename, dput, wrapfs_put_lower_path, fsstack_copy_attr_all,
    fsstack_copy_inode_size, log_since, is_primitive]

/-- C8 (the code at the failing input): a rename of the virtual entry 11 of the virtual
directory inode 1 to the virtual entry 13 of the virtual directory inode 3 calls
vfs_rename once, with the virtual directories 1 and 3 and the virtual entries 11 and 13;
the lower entries are 111 and 113 and the inodes of the locked lower directories are
101 and 103. -/
theorem wrapfs_rename_passes_virtual_objects :
    (log_since ex_world (wrapfs_rename (ex_env id 0 0 id 0) ex_world 1 11 3 13 0).2).filter
        (fun e => is_primitive e) =
      [Event.vfs_rename { old_dir := 1, old_dentry := 11, new_dir := 3, new_dentry := 13,
                          flags := 0 }] ∧
    lower_dentry_of ex_world 11 = 111 ∧ lower_dentry_of ex_world 13 = 113 ∧
    lower_parent_inode (locked_lower (ex_env id 0 0 id 0) ex_world) ex_world 11 = 101 ∧
    lower_parent_inode (locked_lower (ex_env id 0 0 id 0) ex_world) ex_world 13 = 103 ∧
    rename_valid (ex_env id 0 0 id 0) ex_world 11 13 ∧
    rename_trap (ex_env id 0 0 id 0) ex_world 11 13 ≠ 111 ∧
    rename_trap (ex_env id 0 0 id 0) ex_world 11 13 ≠ 113 := by
  decide

/-! ### wrapfs_setattr -/

theorem and_not_attr_mode (x : Nat) (h : x < 2 ^ 32) (i : Nat) :
    (x &&& NOT_ATTR_MODE).testBit i = (x.testBit i && !ATTR_MODE.testBit i) := by
  rw [Nat.testBit_and]
  by_cases hi : i < 32
  · have hA : ∀ k < 32, NOT_ATTR_MODE.testBit k = !ATTR_MODE.testBit k := by decide
    rw [hA i hi]
  · have hx : x.testBit i = false :=
      Nat.testBit_lt_two_pow (lt_of_lt_of_le h (Nat.pow_le_pow_right (by decide) (not_lt.mp hi)))
    simp [hx]

theorem and_kill_mask (x : Nat) :
    x &&& (ATTR_KILL_SUID ||| ATTR_KILL_SGID) ≠ 0 ↔
      (mask_has x ATTR_KILL_SUID ∨ mask_has x ATTR_KILL_SGID) := by
  unfold mask_has
  rw [Nat.and_or_distrib_left]
  constructor
  · intro h
    by_contra hn
    simp only [not_or, ne_eq, not_not] at hn
    apply h
    rw [hn.1, hn.2]
    rfl
  · intro h hz
    have h1 : x &&& ATTR_KILL_SUID = 0 := by
      apply Nat.eq_of_testBit_eq
      intro i
      have := congrArg (fun n => Nat.testBit n i) hz
      simp only [Nat.testBit_or, Nat.zero_testBit, Bool.or_eq_false_iff] at this
      simpa using this.1
    have h2 : x &&& ATTR_KILL_SGID = 0 := by
      apply Nat.eq_of_testBit_eq
      intro i
      have := congrArg (fun n => Nat.testBit n i) hz
      simp only [Nat.testBit_or, Nat.zero_testBit, Bool.or_eq_false_iff] at this
      simpa using this.2
    rcases h with h | h
    · exact h h1
    · exact h h2


theorem lower_ia_forwarded (w : World) (ia : Iattr) (hty : ia.ia_valid < 2 ^ 32) :
    forwarded_as w ia (setattr_lower_ia w ia) := by
  have hk := and_kill_mask ia.ia_valid
  have hfile : ∀ a : Iattr, a.ia_file =
      (if ia.ia_valid &&& ATTR_FILE ≠ 0 then w.upper.lower_file ia.ia_file else ia.ia_file) →
      a.ia_file = (if mask_has ia.ia_valid ATTR_FILE then w.upper.lower_file ia.ia_file
        else ia.ia_file) := fun a h => h
  unfold setattr_lower_ia
  by_cases hf : ia.ia_valid &&& ATTR_FILE = 0 <;>
  by_cases hkill : ia.ia_valid &&& (ATTR_KILL_SUID ||| ATTR_KILL_SGID) = 0
  · have hk2 : ¬ (mask_has ia.ia_valid ATTR_KILL_SUID ∨ mask_has ia.ia_valid ATTR_KILL_SGID) :=
      fun h => (hk.mpr h) hkill
    simp only [ne_eq, hf, hkill, not_true_eq_false, if_false]
    exact ⟨fun h => absurd h hk2, fun _ => rfl, rfl, rfl, rfl, rfl, rfl, rfl, rfl,
      hfile _ (by simp [hf])⟩
  · have hk2 : mask_has ia.ia_valid ATTR_KILL_SUID ∨ mask_has ia.ia_valid ATTR_KILL_SGID :=
      hk.mp hkill
    simp only [ne_eq, hf, hkill, not_true_eq_false, not_false_eq_true, if_false, if_true]
    exact ⟨fun _ i => and_not_attr_mode _ hty i, fun h => absurd hk2 h, rfl, rfl, rfl, rfl,
      rfl, rfl, rfl, hfile _ (by simp [hf])⟩
  · have hk2 : ¬ (mask_has ia.ia_valid ATTR_KILL_SUID ∨ mask_has ia.ia_valid ATTR_KILL_SGID) :=
      fun h => (hk.mpr h) hkill
    simp only [ne_eq, hf, hkill, not_true_eq_false, not_false_eq_true, if_false, if_true]
    exact ⟨fun h => absurd h hk2, fun _ => rfl, rfl, rfl, rfl, rfl, rfl, rfl, rfl,
      hfile _ (by simp [hf])⟩
  · have hk2 : mask_has ia.ia_valid ATTR_KILL_SUID ∨ mask_has ia.ia_valid ATTR_KILL_SGID :=
      hk.mp hkill
    simp only [ne_eq, hf, hkill, not_true_eq_false, not_false_eq_true, if_false, if_true]
    exact ⟨fun _ i => and_not_attr_mode _ hty i, fun h => absurd hk2 h, rfl, rfl, rfl, rfl,
      rfl, rfl, rfl, hfile _ (by simp [hf])⟩

/-- The events of wrapfs_setattr after a passed setattr_prepare. -/
theorem wrapfs_setattr_log (E : Env) (w : World) (dentry : Ptr) (ia : Iattr)
    (hprep : E.setattr_prepare w.upper dentry ia = 0) :
    (mask_has ia.ia_valid ATTR_SIZE →
      E.inode_newsize_ok (w.upper.inodes (w.upper.dentries dentry).d_inode) ia.ia_size ≠ 0 →
      log_since w (wrapfs_setattr E w dentry ia).world =
        [.get_lower_path dentry (w.upper.lower_path dentry),
         .put_lower_path dentry (w.upper.lower_path dentry)]) ∧
    (mask_has ia.ia_valid ATTR_SIZE →
      E.inode_newsize_ok (w.upper.inodes (w.upper.dentries dentry).d_inode) ia.ia_size = 0 →
      log_since w (wrapfs_setattr E w dentry ia).world =
        [.get_lower_path dentry (w.upper.lower_path dentry),
         .truncate_setsize (w.upper.dentries dentry).d_inode ia.ia_size,
         .inode_lock (w.lower.dentries (lower_dentry_of w dentry)).d_inode,
         .notify_change (lower_dentry_of w dentry) (setattr_lower_ia w ia),
         .inode_unlock ((E.notify_change w.lower (lower_dentry_of w dentry)
           (setattr_lower_ia w ia)).2.dentries (lower_dentry_of w dentry)).d_inode,
         .put_lower_path dentry (w.upper.lower_path dentry)]) ∧
    (¬ mask_has ia.ia_valid ATTR_SIZE →
      log_since w (wrapfs_setattr E w dentry ia).world =
        [.get_lower_path dentry (w.upper.lower_path dentry),
         .inode_lock (w.lower.dentries (lower_dentry_of w dentry)).d_inode,
         .notify_change (lower_dentry_of w dentry) (setattr_lower_ia w ia),
         .inode_unlock ((E.notify_change w.lower (lower_dentry_of w dentry)
           (setattr_lower_ia w ia)).2.dentries (lower_dentry_of w dentry)).d_inode,
         .put_lower_path dentry (w.upper.lower_path dentry)]) := by
  refine ⟨?_, ?_, ?_⟩
  · intro hsz hok
    simp only [mask_has] at hsz
    simp [wrapfs_setattr, hprep, hsz, hok, wrapfs_get_lower_path, wrapfs_put_lower_path,
      log_since]
  · intro hsz hok
    simp only [mask_has] at hsz
    simp only [wrapfs_setattr, hprep, hsz, hok, ne_eq, not_true_eq_false, not_false_eq_true,
      if_true, if_false, apply_ite SetattrResult.world, apply_ite World.trace,
      wrapfs_get_lower_path, wrapfs_put_lower_path, truncate_setsize, i_size_write,
      notify_change, fsstack_copy_attr_all, wrapfs_lower_inode, emit_trace, emit_lower,
      emit_upper, modify_inode_trace, modify_inode_lower, modify_inode_lower_file, log_since,
      List.append_assoc, List.singleton_append, List.cons_append, List.nil_append,
      List.drop_left, lower_dentry_of, ite_self]
    rfl
  · intro hsz
    simp only [mask_has, ne_eq, not_not] at hsz
    simp only [wrapfs_setattr, hprep, hsz, ne_eq, not_true_eq_false, not_false_eq_true,
      if_true, if_false, apply_ite SetattrResult.world, apply_ite World.trace,
      wrapfs_get_lower_path, wrapfs_put_lower_path, truncate_setsize, i_size_write,
      notify_change, fsstack_copy_attr_all, wrapfs_lower_inode, emit_trace, emit_lower,
      emit_upper, modify_inode_trace, modify_inode_lower, modify_inode_lower_file, log_since,
      List.append_assoc, List.singleton_append, List.cons_append, List.nil_append,
      List.drop_left, lower_dentry_of, ite_self]
    rfl

/-- C9 as stated fails: a size change to 3 on the virtual inode 2 whose notify_change
fails leaves the virtual size 3 while the lower inode 102 keeps the size 7. -/
theorem wrapfs_setattr_size_differs_from_lower :
    (ex_env id 0 (-5) id 0).setattr_prepare ex_world.upper 11 (ex_iattr ATTR_SIZE 3) = 0 ∧
    (ex_env id 0 (-5) id 0).inode_newsize_ok (ex_world.upper.inodes 2) 3 = 0 ∧
    wrapfs_lower_inode ex_world 2 = 102 ∧
    (ex_world.lower.dentries (lower_dentry_of ex_world 11)).d_inode = 102 ∧
    ((wrapfs_setattr (ex_env id 0 (-5) id 0) ex_world 11
        (ex_iattr ATTR_SIZE 3)).world.upper.inodes 2).i_size = 3 ∧
    ((wrapfs_setattr (ex_env id 0 (-5) id 0) ex_world 11
        (ex_iattr ATTR_SIZE 3)).world.lower.inodes 102).i_size = 7 ∧
    ((wrapfs_setattr (ex_env id 0 (-5) id 0) ex_world 11
        (ex_iattr ATTR_SIZE 3)).world.upper.inodes 2).i_size ≠
      ((wrapfs_setattr (ex_env id 0 (-5) id 0) ex_world 11
        (ex_iattr ATTR_SIZE 3)).world.lower.inodes 102).i_size := by
  decide

/-- C9, amended: in a setattr that carries a size change and passes setattr_prepare and
inode_newsize_ok, the virtual size is set to the requested size (truncate_setsize) before
notify_change is called, and when wrapfs_setattr returns, whether notify_change succeeded
or failed, the virtual size is the requested size. -/
theorem wrapfs_setattr_size (E : Env) (w : World) (dentry : Ptr) (ia : Iattr)
    (hprep : E.setattr_prepare w.upper dentry ia = 0)
    (hsz : mask_has ia.ia_valid ATTR_SIZE)
    (hok : E.inode_newsize_ok (w.upper.inodes (w.upper.dentries dentry).d_inode)
      ia.ia_size = 0) :
    log_since w (wrapfs_setattr E w dentry ia).world =
      [.get_lower_path dentry (w.upper.lower_path dentry),
       .truncate_setsize (w.upper.dentries dentry).d_inode ia.ia_size,
       .inode_lock (w.lower.dentries (lower_dentry_of w dentry)).d_inode,
       .notify_change (lower_dentry_of w dentry) (setattr_lower_ia w ia),
       .inode_unlock ((E.notify_change w.lower (lower_dentry_of w dentry)
           (setattr_lower_ia w ia)).2.dentries (lower_dentry_of w dentry)).d_inode,
       .put_lower_path dentry (w.upper.lower_path dentry)] ∧
    ((wrapfs_setattr E w dentry ia).world.upper.inodes (w.upper.dentries dentry).d_inode).i_size
      = ia.ia_size := by
  refine ⟨(wrapfs_setattr_log E w dentry ia hprep).2.1 hsz hok, ?_⟩
  simp only [mask_has] at hsz
  simp only [wrapfs_setattr, wrapfs_get_lower_path, emit_upper, emit_lower, hprep, hsz, hok,
    ne_eq, not_true_eq_false, not_false_eq_true, if_true, if_false]
  split_ifs <;>
  simp [wrapfs_put_lower_path, fsstack_copy_attr_all, notify_change, truncate_setsize,
    i_size_write, wrapfs_get_lower_path]

theorem wrapfs_setattr_size_witness :
    ((wrapfs_setattr (ex_env id 0 (-5) id 0) ex_world 11
        (ex_iattr ATTR_SIZE 3)).world.upper.inodes (ex_world.upper.dentries 11).d_inode).i_size
      = 3 :=
  (wrapfs_setattr_size (ex_env id 0 (-5) id 0) ex_world 11 (ex_iattr ATTR_SIZE 3) rfl
    (by decide) rfl).2

/-- C10: after a passed setattr_prepare (the mask being an unsigned int), every request
that wrapfs_setattr passes to notify_change goes to the lower entry and is the caller's
request with ATTR_MODE cleared from the mask when the mask contains ATTR_KILL_SUID or
ATTR_KILL_SGID, the same mask otherwise, the lower file for the file when ATTR_FILE is
set, and every other field unchanged; the caller's request is as before; and unless
inode_newsize_ok rejects a size change, exactly one request is passed. -/
theorem wrapfs_setattr_forwarded_request (E : Env) (w : World) (dentry : Ptr) (ia : Iattr)
    (hprep : E.setattr_prepare w.upper dentry ia = 0) (hty : ia.ia_valid < 2 ^ 32) :
    (wrapfs_setattr E w dentry ia).ia = ia ∧
    (∀ d a, Event.notify_change d a ∈ log_since w (wrapfs_setattr E w dentry ia).world →
      d = lower_dentry_of w dentry ∧ forwarded_as w ia a) ∧
    (¬ mask_has ia.ia_valid ATTR_SIZE ∨
        E.inode_newsize_ok (w.upper.inodes (w.upper.dentries dentry).d_inode) ia.ia_size = 0 →
      ((log_since w (wrapfs_setattr E w dentry ia).world).filter
        (fun e => is_notify_change e)).length = 1) := by
  have hfw := lower_ia_forwarded w ia hty
  obtain ⟨hlog1, hlog2, hlog3⟩ := wrapfs_setattr_log E w dentry ia hprep
  refine ⟨?_, ?_, ?_⟩
  · simp only [wrapfs_setattr]
    split_ifs <;> rfl
  · intro d a hmem
    by_cases hsz : mask_has ia.ia_valid ATTR_SIZE
    · by_cases hok : E.inode_newsize_ok (w.upper.inodes (w.upper.dentries dentry).d_inode)
          ia.ia_size = 0
      · rw [hlog2 hsz hok] at hmem
        simp only [List.mem_cons, List.mem_singleton, reduceCtorEq, false_or, or_false,
          Event.notify_change.injEq, List.not_mem_nil] at hmem
        obtain ⟨rfl, rfl⟩ := hmem
        exact ⟨rfl, hfw⟩
      · rw [hlog1 hsz hok] at hmem
        simp at hmem
    · rw [hlog3 hsz] at hmem
      simp only [List.mem_cons, List.mem_singleton, reduceCtorEq, false_or, or_false,
        Event.notify_change.injEq, List.not_mem_nil] at hmem
      obtain ⟨rfl, rfl⟩ := hmem
      exact ⟨rfl, hfw⟩
  · intro h
    by_cases hsz : mask_has ia.ia_valid ATTR_SIZE
    · rcases h with h | h
      · exact absurd hsz h
      · rw [hlog2 hsz h]
        simp [is_notify_change]
    · rw [hlog3 hsz]
      simp [is_notify_change]

theorem wrapfs_setattr_forwarded_request_witness :
    (wrapfs_setattr (ex_env id 0 0 id 0) ex_world 11 (ex_iattr 10241 0)).ia =
      ex_iattr 10241 0 ∧
    ((log_since ex_world (wrapfs_setattr (ex_env id 0 0 id 0) ex_world 11
        (ex_iattr 10241 0)).world).filter (fun e => is_notify_change e)).length = 1 :=
  ⟨(wrapfs_setattr_forwarded_request (ex_env id 0 0 id 0) ex_world 11 (ex_iattr 10241 0)
      rfl (by decide)).1,
   (wrapfs_setattr_forwarded_request (ex_env id 0 0 id 0) ex_world 11 (ex_iattr 10241 0)
      rfl (by decide)).2.2 (by decide)⟩

/-! ### Interposition on success -/

theorem wrapfs_create_interposes (E : Env) (w : World) (dir dentry : Ptr) (mode : Nat) (want_excl : Bool) :
    (wrapfs_create E w dir dentry mode want_excl).1 = 0 →
      primitive_and_interpose_calls (log_since w (wrapfs_create E w dir dentry mode want_excl).2) =
        [.vfs_create (lower_parent_inode (locked_lower E w) w dentry) (lower_dentry_of w dentry)
            mode want_excl,
         interpose_call w dir dentry] ∧
      (interposition E w (create_primitive E w dentry mode want_excl).2 dir dentry).1 = 0 := by
  simp only [wrapfs_create]
  split_ifs with h1 h2
  · intro h; exact absurd h h1
  · intro h; exact absurd h h2
  · intro h
    simp only [wrapfs_get_lower_path, lock_parent, unlock_dir, wrapfs_put_lower_path,
      vfs_create, wrapfs_interpose, fsstack_copy_attr_times, fsstack_copy_inode_size,
      emit_trace, emit_lower, emit_upper, modify_inode_trace, modify_inode_lower,
      List.append_assoc, List.singleton_append, List.cons_append, List.nil_append,
      List.drop_left, log_since] at h ⊢
    refine ⟨?_, ?_⟩
    · simp [primitive_and_interpose_calls, is_primitive, is_interpose, interpose_call,
        lower_parent_inode, lower_parent_of, lower_dentry_of, locked_lower]
    · simpa [interposition, create_primitive, lower_parent_inode, lower_parent_of, lower_dentry_of, locked_lower] using h

theorem wrapfs_symlink_interposes (E : Env) (w : World) (dir dentry : Ptr) (symname : String) :
    (wrapfs_symlink E w dir dentry symname).1 = 0 →
      primitive_and_interpose_calls (log_since w (wrapfs_symlink E w dir dentry symname).2) =
        [.vfs_symlink (lower_parent_inode (locked_lower E w) w dentry) (lower_dentry_of w dentry)
            symname,
         interpose_call w dir dentry] ∧
      (interposition E w (symlink_primitive E w dentry symname).2 dir dentry).1 = 0 := by
  simp only [wrapfs_symlink]
  split_ifs with h1 h2
  · intro h; exact absurd h h1
  · intro h; exact absurd h h2
  · intro h
    simp only [wrapfs_get_lower_path, lock_parent, unlock_dir, wrapfs_put_lower_path,
      vfs_symlink, wrapfs_interpose, fsstack_copy_attr_times, fsstack_copy_inode_size,
      emit_trace, emit_lower, emit_upper, modify_inode_trace, modify_inode_lower,
      List.append_assoc, List.singleton_append, List.cons_append, List.nil_append,
      List.drop_left, log_since] at h ⊢
    refine ⟨?_, ?_⟩
    · simp [primitive_and_interpose_calls, is_primitive, is_interpose, interpose_call,
        lower_parent_inode, lower_parent_of, lower_dentry_of, locked_lower]
    · simpa [interposition, symlink_primitive, lower_parent_inode, lower_parent_of, lower_dentry_of, locked_lower] using h

theorem wrapfs_mkdir_interposes (E : Env) (w : World) (dir dentry : Ptr) (mode : Nat) :
    (wrapfs_mkdir E w dir dentry mode).1 = 0 →
      primitive_and_interpose_calls (log_since w (wrapfs_mkdir E w dir dentry mode).2) =
        [.vfs_mkdir (lower_parent_inode (locked_lower E w) w dentry) (lower_dentry_of w dentry)
            mode,
         interpose_call w dir dentry] ∧
      (interposition E w (mkdir_primitive E w dentry mode).2 dir dentry).1 = 0 := by
  simp only [wrapfs_mkdir]
  split_ifs with h1 h2
  · intro h; exact absurd h h1
  · intro h; exact absurd h h2
  · intro h
    simp only [wrapfs_get_lower_path, lock_parent, unlock_dir, wrapfs_put_lower_path,
      vfs_mkdir, wrapfs_interpose, fsstack_copy_attr_times, fsstack_copy_inode_size, set_nlink,
      emit_trace, emit_lower, emit_upper, modify_inode_trace, modify_inode_lower,
      List.append_assoc, List.singleton_append, List.cons_append, List.nil_append,
      List.drop_left, log_since] at h ⊢
    refine ⟨?_, ?_⟩
    · simp [primitive_and_interpose_calls, is_primitive, is_interpose, interpose_call,
        lower_parent_inode, lower_parent_of, lower_dentry_of, locked_lower]
    · simpa [interposition, mkdir_primitive, lower_parent_inode, lower_parent_of, lower_dentry_of, locked_lower] using h

theorem wrapfs_mknod_interposes (E : Env) (w : World) (dir dentry : Ptr) (mode dev : Nat) :
    (wrapfs_mknod E w dir dentry mode dev).1 = 0 →
      primitive_and_interpose_calls (log_since w (wrapfs_mknod E w dir dentry mode dev).2) =
        [.vfs_mknod (lower_parent_inode (locked_lower E w) w dentry) (lower_dentry_of w dentry)
            mode dev,
         interpose_call w dir dentry] ∧
      (interposition E w (mknod_primitive E w dentry mode dev).2 dir dentry).1 = 0 := by
  simp only [wrapfs_mknod]
  split_ifs with h1 h2
  · intro h; exact absurd h h1
  · intro h; exact absurd h h2
  · intro h
    simp only [wrapfs_get_lower_path, lock_parent, unlock_dir, wrapfs_put_lower_path,
      vfs_mknod, wrapfs_interpose, fsstack_copy_attr_times, fsstack_copy_inode_size,
      emit_trace, emit_lower, emit_upper, modify_inode_trace, modify_inode_lower,
      List.append_assoc, List.singleton_append, List.cons_append, List.nil_append,
      List.drop_left, log_since] at h ⊢
    refine ⟨?_, ?_⟩
    · simp [primitive_and_interpose_calls, is_primitive, is_interpose, interpose_call,
        lower_parent_inode, lower_parent_of, lower_dentry_of, locked_lower]
    · simpa [interposition, mknod_primitive, lower_parent_inode, lower_parent_of, lower_dentry_of, locked_lower] using h

theorem wrapfs_link_interposes_or_negative (E : Env) (w : World)
    (old_dentry dir new_dentry : Ptr) :
    (wrapfs_link E w old_dentry dir new_dentry).1 = 0 →
      (((link_primitive E w old_dentry new_dentry).2.dentries
          (lower_dentry_of w new_dentry)).d_inode = 0 ∧
        (∀ e ∈ log_since w (wrapfs_link E w old_dentry dir new_dentry).2,
          is_interpose e = false) ∧
        (wrapfs_link E w old_dentry dir new_dentry).2.upper = w.upper) ∨
      (((link_primitive E w old_dentry new_dentry).2.dentries
          (lower_dentry_of w new_dentry)).d_inode ≠ 0 ∧
        primitive_and_interpose_calls
            (log_since w (wrapfs_link E w old_dentry dir new_dentry).2) =
          [.vfs_link (lower_dentry_of w old_dentry)
              (lower_parent_inode (locked_lower E w) w new_dentry)
              (lower_dentry_of w new_dentry),
           interpose_call w dir new_dentry] ∧
        (interposition E w (link_primitive E w old_dentry new_dentry).2 dir new_dentry).1
          = 0) := by
  simp only [wrapfs_link]
  split_ifs with h1 h2
  · intro h
    left
    simp only [wrapfs_get_lower_path, lock_parent, unlock_dir, wrapfs_put_lower_path,
      vfs_link, emit_trace, emit_lower, emit_upper,
      List.append_assoc, List.singleton_append, List.cons_append,
      List.nil_append, List.drop_left, log_since] at h h1 ⊢
    rcases h1 with h1 | h1
    · exact absurd h h1
    · refine ⟨?_, ?_, trivial⟩
      · simpa [link_primitive, lower_parent_inode, lower_parent_of, lower_dentry_of,
          locked_lower] using h1
      · simp [is_interpose]
  · intro h; exact absurd h h2
  · intro h
    right
    simp only [wrapfs_get_lower_path, lock_parent, unlock_dir, wrapfs_put_lower_path,
      vfs_link, wrapfs_interpose, fsstack_copy_attr_times, fsstack_copy_inode_size,
      set_nlink, i_size_write,
      emit_trace, emit_lower, emit_upper, modify_inode_trace, modify_inode_lower,
      List.append_assoc, List.singleton_append, List.cons_append,
      List.nil_append, List.drop_left, log_since, not_or, not_not] at h h1 ⊢
    refine ⟨?_, ?_, ?_⟩
    · simpa [link_primitive, lower_parent_inode, lower_parent_of, lower_dentry_of,
        locked_lower] using h1.2
    · simp [primitive_and_interpose_calls, is_primitive, is_interpose, interpose_call,
        lower_parent_inode, lower_parent_of, lower_dentry_of, locked_lower]
    · simpa [interposition, link_primitive, lower_parent_inode, lower_parent_of,
        lower_dentry_of, locked_lower] using h

/-- C13 as stated fails: when vfs_link returns 0 and leaves the lower new entry 113
negative, wrapfs_link returns 0 and wrapfs_interpose is not called. -/
theorem wrapfs_link_success_without_interposition :
    (link_primitive (ex_env id 0 0 id 0) ex_world 11 13).1 = 0 ∧
    ((link_primitive (ex_env id 0 0 id 0) ex_world 11 13).2.dentries
      (lower_dentry_of ex_world 13)).d_inode = 0 ∧
    (wrapfs_link (ex_env id 0 0 id 0) ex_world 11 3 13).1 = 0 ∧
    (∀ e ∈ log_since ex_world (wrapfs_link (ex_env id 0 0 id 0) ex_world 11 3 13).2,
      is_interpose e = false) := by
  decide

/-- C13, amended: a successful create, symlink, mkdir or mknod has called the lower
primitive and then wrapfs_interpose, once each, on the virtual entry and its lower path,
and the interposition returned 0; a successful link has done the same on the new entry
unless the lower new entry is negative after vfs_link, in which case wrapfs_link returns
the 0 of vfs_link without interposing and without changing the virtual layer. -/
theorem success_means_interposed (E : Env) (w : World) (dir dentry old_dentry : Ptr)
    (mode dev : Nat) (want_excl : Bool) (symname : String) :
    ((wrapfs_create E w dir dentry mode want_excl).1 = 0 →
      primitive_and_interpose_calls
          (log_since w (wrapfs_create E w dir dentry mode want_excl).2) =
        [.vfs_create (lower_parent_inode (locked_lower E w) w dentry) (lower_dentry_of w dentry)
            mode want_excl,
         interpose_call w dir dentry] ∧
      (interposition E w (create_primitive E w dentry mode want_excl).2 dir dentry).1 = 0) ∧
    ((wrapfs_symlink E w dir dentry symname).1 = 0 →
      primitive_and_interpose_calls (log_since w (wrapfs_symlink E w dir dentry symname).2) =
        [.vfs_symlink (lower_parent_inode (locked_lower E w) w dentry)
            (lower_dentry_of w dentry) symname,
         interpose_call w dir dentry] ∧
      (interposition E w (symlink_primitive E w dentry symname).2 dir dentry).1 = 0) ∧
    ((wrapfs_mkdir E w dir dentry mode).1 = 0 →
      primitive_and_interpose_calls (log_since w (wrapfs_mkdir E w dir dentry mode).2) =
        [.vfs_mkdir (lower_parent_inode (locked_lower E w) w dentry) (lower_dentry_of w dentry)
            mode,
         interpose_call w dir dentry] ∧
      (interposition E w (mkdir_primitive E w dentry mode).2 dir dentry).1 = 0) ∧
    ((wrapfs_mknod E w dir dentry mode dev).1 = 0 →
      primitive_and_interpose_calls (log_since w (wrapfs_mknod E w dir dentry mode dev).2) =
        [.vfs_mknod (lower_parent_inode (locked_lower E w) w dentry) (lower_dentry_of w dentry)
            mode dev,
         interpose_call w dir dentry] ∧
      (interposition E w (mknod_primitive E w dentry mode dev).2 dir dentry).1 = 0) ∧
    ((wrapfs_link E w old_dentry dir dentry).1 = 0 →
      (((link_primitive E w old_dentry dentry).2.dentries
          (lower_dentry_of w dentry)).d_inode = 0 ∧
        (∀ e ∈ log_since w (wrapfs_link E w old_dentry dir dentry).2,
          is_interpose e = false) ∧
        (wrapfs_link E w old_dentry dir dentry).2.upper = w.upper) ∨
      (((link_primitive E w old_dentry dentry).2.dentries
          (lower_dentry_of w dentry)).d_inode ≠ 0 ∧
        primitive_and_interpose_calls
            (log_since w (wrapfs_link E w old_dentry dir dentry).2) =
          [.vfs_link (lower_dentry_of w old_dentry)
              (lower_parent_inode (locked_lower E w) w dentry)
              (lower_dentry_of w dentry),
           interpose_call w dir dentry] ∧
        (interposition E w (link_primitive E w old_dentry dentry).2 dir dentry).1 = 0)) :=
  ⟨wrapfs_create_interposes E w dir dentry mode want_excl,
   wrapfs_symlink_interposes E w dir dentry symname,
   wrapfs_mkdir_interposes E w dir dentry mode,
   wrapfs_mknod_interposes E w dir dentry mode dev,
   wrapfs_link_interposes_or_negative E w old_dentry dir dentry⟩

theorem success_means_interposed_witness :
    (interposition (ex_env_attach 0 ex_create_done) ex_world
      (create_primitive (ex_env_attach 0 ex_create_done) ex_world 13 420 false).2 3 13).1 = 0 ∧
    (interposition (ex_env_attach 0 ex_create_done) ex_world
      (symlink_primitive (ex_env_attach 0 ex_create_done) ex_world 13 "t").2 3 13).1 = 0 ∧
    (interposition (ex_env_attach 0 ex_create_done) ex_world
      (mkdir_primitive (ex_env_attach 0 ex_create_done) ex_world 13 493).2 3 13).1 = 0 ∧
    (interposition (ex_env_attach 0 ex_create_done) ex_world
      (mknod_primitive (ex_env_attach 0 ex_create_done) ex_world 13 420 0).2 3 13).1 = 0 ∧
    ((((link_primitive (ex_env_attach 0 ex_link_done) ex_world 11 13).2.dentries
          (lower_dentry_of ex_world 13)).d_inode = 0 ∧
        (∀ e ∈ log_since ex_world
            (wrapfs_link (ex_env_attach 0 ex_link_done) ex_world 11 3 13).2,
          is_interpose e = false) ∧
        (wrapfs_link (ex_env_attach 0 ex_link_done) ex_world 11 3 13).2.upper
          = ex_world.upper) ∨
      (((link_primitive (ex_env_attach 0 ex_link_done) ex_world 11 13).2.dentries
          (lower_dentry_of ex_world 13)).d_inode ≠ 0 ∧
        primitive_and_interpose_calls
            (log_since ex_world
              (wrapfs_link (ex_env_attach 0 ex_link_done) ex_world 11 3 13).2) =
          [.vfs_link (lower_dentry_of ex_world 11)
              (lower_parent_inode (locked_lower (ex_env_attach 0 ex_link_done) ex_world)
                ex_world 13)
              (lower_dentry_of ex_world 13),
           interpose_call ex_world 3 13] ∧
        (interposition (ex_env_attach 0 ex_link_done) ex_world
          (link_primitive (ex_env_attach 0 ex_link_done) ex_world 11 13).2 3 13).1 = 0)) :=
  ⟨((success_means_interposed (ex_env_attach 0 ex_create_done) ex_world 3 13 11 420 0 false
      "t").1 (by decide)).2,
   ((success_means_interposed (ex_env_attach 0 ex_create_done) ex_world 3 13 11 420 0 false
      "t").2.1 (by decide)).2,
   ((success_means_interposed (ex_env_attach 0 ex_create_done) ex_world 3 13 11 493 0 false
      "t").2.2.1 (by decide)).2,
   ((success_means_interposed (ex_env_attach 0 ex_create_done) ex_world 3 13 11 420 0 false
      "t").2.2.2.1 (by decide)).2,
   (success_means_interposed (ex_env_attach 0 ex_link_done) ex_world 3 13 11 420 0 false
      "t").2.2.2.2 (by decide)⟩

/-! ### Extended attributes -/

theorem to_int_of_fits (x : Int) (h : fits_int x) : to_int x = x := by
  obtain ⟨h1, h2⟩ := h
  unfold to_int
  omega

/-- Supporting C11, the gate as the code has it: set, get and list read IOP_XATTR from
the node of the resolved lower entry, remove reads it from the lower node of the virtual
node passed (wrapfs_lower_inode).  Without the flag on the node read, the operation
returns -EOPNOTSUPP, calls no extended-attribute primitive and leaves the virtual layer
and the lower store unchanged; with it, the operation calls its primitive once on the
lower entry and returns the primitive's result (a value of type int, the type of the
local err). -/
theorem xattr_gate_as_coded (X : XattrEnv) (w : World) (dentry inode : Ptr)
    (name : String) (value buffer : Ptr) (size : Nat) (flags : Int) :
    (¬ xattr_capable w.lower (lower_node_of w dentry) →
      (wrapfs_setxattr X w dentry inode name value size flags).1 = -EOPNOTSUPP ∧
      xattr_calls (log_since w (wrapfs_setxattr X w dentry inode name value size flags).2) = [] ∧
      (wrapfs_setxattr X w dentry inode name value size flags).2.upper = w.upper ∧
      (wrapfs_setxattr X w dentry inode name value size flags).2.lower = w.lower) ∧
    (xattr_capable w.lower (lower_node_of w dentry) →
      xattr_calls (log_since w (wrapfs_setxattr X w dentry inode name value size flags).2) =
        [.vfs_setxattr (lower_dentry_of w dentry) name value size flags] ∧
      (wrapfs_setxattr X w dentry inode name value size flags).1 =
        (X.vfs_setxattr w.lower (lower_dentry_of w dentry) name value size flags).1) ∧
    (¬ xattr_capable w.lower (lower_node_of w dentry) →
      (wrapfs_getxattr X w dentry inode name buffer size).1 = -EOPNOTSUPP ∧
      xattr_calls (log_since w (wrapfs_getxattr X w dentry inode name buffer size).2) = [] ∧
      (wrapfs_getxattr X w dentry inode name buffer size).2.upper = w.upper ∧
      (wrapfs_getxattr X w dentry inode name buffer size).2.lower = w.lower) ∧
    (xattr_capable w.lower (lower_node_of w dentry) →
      fits_int (X.vfs_getxattr w.lower (lower_dentry_of w dentry) name buffer size).1 →
      xattr_calls (log_since w (wrapfs_getxattr X w dentry inode name buffer size).2) =
        [.vfs_getxattr (lower_dentry_of w dentry) name buffer size] ∧
      (wrapfs_getxattr X w dentry inode name buffer size).1 =
        (X.vfs_getxattr w.lower (lower_dentry_of w dentry) name buffer size).1) ∧
    (¬ xattr_capable w.lower (lower_node_of w dentry) →
      (wrapfs_listxattr X w dentry buffer size).1 = -EOPNOTSUPP ∧
      xattr_calls (log_since w (wrapfs_listxattr X w dentry buffer size).2) = [] ∧
      (wrapfs_listxattr X w dentry buffer size).2.upper = w.upper ∧
      (wrapfs_listxattr X w dentry buffer size).2.lower = w.lower) ∧
    (xattr_capable w.lower (lower_node_of w dentry) →
      fits_int (X.vfs_listxattr w.lower (lower_dentry_of w dentry) buffer size).1 →
      xattr_calls (log_since w (wrapfs_listxattr X w dentry buffer size).2) =
        [.vfs_listxattr (lower_dentry_of w dentry) buffer size] ∧
      (wrapfs_listxattr X w dentry buffer size).1 =
        (X.vfs_listxattr w.lower (lower_dentry_of w dentry) buffer size).1) ∧
    (¬ xattr_capable w.lower (wrapfs_lower_inode w inode) →
      (wrapfs_removexattr X w dentry inode name).1 = -EOPNOTSUPP ∧
      xattr_calls (log_since w (wrapfs_removexattr X w dentry inode name).2) = [] ∧
      (wrapfs_removexattr X w dentry inode name).2.upper = w.upper ∧
      (wrapfs_removexattr X w dentry inode name).2.lower = w.lower) ∧
    (xattr_capable w.lower (wrapfs_lower_inode w inode) →
      xattr_calls (log_since w (wrapfs_removexattr X w dentry inode name).2) =
        [.vfs_removexattr (lower_dentry_of w dentry) name] ∧
      (wrapfs_removexattr X w dentry inode name).1 =
        (X.vfs_removexattr w.lower (lower_dentry_of w dentry) name).1) := by
  refine ⟨?_, ?_, ?_, ?_, ?_, ?_, ?_, ?_⟩
  · intro h
    simp only [xattr_capable, lower_node_of, lower_dentry_of, ne_eq, not_not] at h
    simp [wrapfs_setxattr, wrapfs_get_lower_path, wrapfs_put_lower_path, h, log_since,
      xattr_calls, is_xattr_primitive]
  · intro h
    simp only [xattr_capable, lower_node_of, lower_dentry_of, ne_eq] at h
    simp only [wrapfs_setxattr, wrapfs_get_lower_path, emit_lower, emit_upper, h, if_false]
    split_ifs <;>
    simp [vfs_setxattr, wrapfs_put_lower_path, fsstack_copy_attr_all, log_since, xattr_calls,
      is_xattr_primitive, lower_dentry_of]
  · intro h
    simp only [xattr_capable, lower_node_of, lower_dentry_of, ne_eq, not_not] at h
    simp [wrapfs_getxattr, wrapfs_get_lower_path, wrapfs_put_lower_path, h, log_since,
      xattr_calls, is_xattr_primitive]
  · intro h hfit
    simp only [xattr_capable, lower_node_of, lower_dentry_of, ne_eq] at h
    simp only [lower_dentry_of] at hfit
    simp only [wrapfs_getxattr, wrapfs_get_lower_path, emit_lower, emit_upper, h, if_false]
    split_ifs <;>
    simp [vfs_getxattr, wrapfs_put_lower_path, fsstack_copy_attr_atime, log_since,
      xattr_calls, is_xattr_primitive, lower_dentry_of, to_int_of_fits _ hfit]
  · intro h
    simp only [xattr_capable, lower_node_of, lower_dentry_of, ne_eq, not_not] at h
    simp [wrapfs_listxattr, wrapfs_get_lower_path, wrapfs_put_lower_path, h, log_since,
      xattr_calls, is_xattr_primitive]
  · intro h hfit
    simp only [xattr_capable, lower_node_of, lower_dentry_of, ne_eq] at h
    simp only [lower_dentry_of] at hfit
    simp only [wrapfs_listxattr, wrapfs_get_lower_path, emit_lower, emit_upper, h, if_false]
    split_ifs <;>
    simp [vfs_listxattr, wrapfs_put_lower_path, fsstack_copy_attr_atime, log_since,
      xattr_calls, is_xattr_primitive, lower_dentry_of, to_int_of_fits _ hfit]
  · intro h
    simp only [xattr_capable, wrapfs_lower_inode, ne_eq, not_not] at h
    simp [wrapfs_removexattr, wrapfs_get_lower_path, wrapfs_put_lower_path,
      wrapfs_lower_inode, h, log_since, xattr_calls, is_xattr_primitive]
  · intro h
    simp only [xattr_capable, wrapfs_lower_inode, ne_eq] at h
    simp only [wrapfs_removexattr, wrapfs_get_lower_path, wrapfs_lower_inode, emit_lower,
      emit_upper, h, if_false]
    split_ifs <;>
    simp [vfs_removexattr, wrapfs_put_lower_path, fsstack_copy_attr_all, log_since,
      xattr_calls, is_xattr_primitive, lower_dentry_of]

theorem xattr_gate_as_coded_witness :
    ((wrapfs_setxattr (ex_xattr_env (-5)) (ex_world_opflags 0) 11 2 "user.k" 7 3 0).1
        = -EOPNOTSUPP ∧
      (wrapfs_getxattr (ex_xattr_env 3) (ex_world_opflags 0) 11 2 "user.k" 7 16).1
        = -EOPNOTSUPP ∧
      (wrapfs_listxattr (ex_xattr_env 3) (ex_world_opflags 0) 11 7 16).1 = -EOPNOTSUPP ∧
      (wrapfs_removexattr (ex_xattr_env (-5)) (ex_world_opflags 0) 11 2 "user.k").1
        = -EOPNOTSUPP) ∧
    ((wrapfs_setxattr (ex_xattr_env (-5)) (ex_world_opflags IOP_XATTR) 11 2 "user.k" 7 3 0).1
        = -5 ∧
      (wrapfs_getxattr (ex_xattr_env 3) (ex_world_opflags IOP_XATTR) 11 2 "user.k" 7 16).1
        = 3 ∧
      (wrapfs_listxattr (ex_xattr_env 3) (ex_world_opflags IOP_XATTR) 11 7 16).1 = 3 ∧
      (wrapfs_removexattr (ex_xattr_env (-5)) (ex_world_opflags IOP_XATTR) 11 2 "user.k").1
        = -5) :=
  ⟨⟨((xattr_gate_as_coded (ex_xattr_env (-5)) (ex_world_opflags 0) 11 2 "user.k" 7 7 3
        0).1 (by decide)).1,
    ((xattr_gate_as_coded (ex_xattr_env 3) (ex_world_opflags 0) 11 2 "user.k" 7 7 16
        0).2.2.1 (by decide)).1,
    ((xattr_gate_as_coded (ex_xattr_env 3) (ex_world_opflags 0) 11 2 "user.k" 7 7 16
        0).2.2.2.2.1 (by decide)).1,
    ((xattr_gate_as_coded (ex_xattr_env (-5)) (ex_world_opflags 0) 11 2 "user.k" 7 7 3
        0).2.2.2.2.2.2.1 (by decide)).1⟩,
   ⟨((xattr_gate_as_coded (ex_xattr_env (-5)) (ex_world_opflags IOP_XATTR) 11 2 "user.k"
        7 7 3 0).2.1 (by decide)).2,
    ((xattr_gate_as_coded (ex_xattr_env 3) (ex_world_opflags IOP_XATTR) 11 2 "user.k"
        7 7 16 0).2.2.2.1 (by decide) (by decide)).2,
    ((xattr_gate_as_coded (ex_xattr_env 3) (ex_world_opflags IOP_XATTR) 11 2 "user.k"
        7 7 16 0).2.2.2.2.2.1 (by decide) (by decide)).2,
    ((xattr_gate_as_coded (ex_xattr_env (-5)) (ex_world_opflags IOP_XATTR) 11 2 "user.k"
        7 7 3 0).2.2.2.2.2.2.2 (by decide)).2⟩⟩

/-- C12: on a page fault and on a write fault of a mapped virtual file (its lower
operations being set), the lower handler is called once, on the unchanged shared
descriptors, with a request that points to a private copy of the shared descriptor whose
only different field is the file, the lower file; the shim returns the handler's result,
the shared descriptors are as the handler left them (so the shared descriptor has its
contents of before the call when the handler did not write it), and the request points to
the shared descriptor again.  A write fault without a lower page_mkwrite returns 0,
calls nothing and changes nothing. -/
theorem fault_shim_private_copy (E : MapEnv) (m : MapWorld) (lower_vma_addr : Ptr)
    (vmf : VmFault) (hops : lower_ops_of m vmf ≠ 0) :
    (∃ r lv, wrapfs_fault E m lower_vma_addr vmf = some r ∧ private_copy m vmf lv ∧
      r.world.trace =
        m.trace ++ [.fault (lower_ops_of m vmf) lv (redirected vmf lower_vma_addr)] ∧
      forwards r
        (E.fault (lower_ops_of m vmf) m.vmas lv (redirected vmf lower_vma_addr)) vmf.vma ∧
      ((E.fault (lower_ops_of m vmf) m.vmas lv (redirected vmf lower_vma_addr)).vmas vmf.vma
          = m.vmas vmf.vma →
        r.world.vmas vmf.vma = m.vmas vmf.vma)) ∧
    (E.has_page_mkwrite (lower_ops_of m vmf) = true →
      ∃ r lv, wrapfs_page_mkwrite E m lower_vma_addr vmf = some r ∧ private_copy m vmf lv ∧
        r.world.trace =
          m.trace ++ [.page_mkwrite (lower_ops_of m vmf) lv (redirected vmf lower_vma_addr)] ∧
        forwards r
          (E.page_mkwrite (lower_ops_of m vmf) m.vmas lv (redirected vmf lower_vma_addr))
          vmf.vma ∧
        ((E.page_mkwrite (lower_ops_of m vmf) m.vmas lv
              (redirected vmf lower_vma_addr)).vmas vmf.vma = m.vmas vmf.vma →
          r.world.vmas vmf.vma = m.vmas vmf.vma)) ∧
    (E.has_page_mkwrite (lower_ops_of m vmf) = false →
      wrapfs_page_mkwrite E m lower_vma_addr vmf = some { err := 0, world := m, vmf := vmf }) := by
  simp only [lower_ops_of, mapped_file] at hops
  refine ⟨?_, ?_, ?_⟩
  · have hr : ∃ r, wrapfs_fault E m lower_vma_addr vmf = some r := by
      simp only [wrapfs_fault, hops, if_false]
      exact ⟨_, rfl⟩
    obtain ⟨r, hr⟩ := hr
    refine ⟨r, { m.vmas vmf.vma with vm_file := m.lower_file (m.vmas vmf.vma).vm_file }, hr,
      ?_⟩
    simp only [wrapfs_fault, hops, if_false, Option.some.injEq] at hr
    subst hr
    exact ⟨⟨rfl, rfl, rfl, rfl, rfl, rfl, rfl, rfl, rfl⟩, rfl, ⟨rfl, rfl, rfl, rfl⟩,
      fun h => h⟩
  · intro hm
    simp only [lower_ops_of, mapped_file] at hm
    have hr : ∃ r, wrapfs_page_mkwrite E m lower_vma_addr vmf = some r := by
      simp only [wrapfs_page_mkwrite, hops, hm, if_false, Bool.true_eq_false]
      exact ⟨_, rfl⟩
    obtain ⟨r, hr⟩ := hr
    refine ⟨r, { m.vmas vmf.vma with vm_file := m.lower_file (m.vmas vmf.vma).vm_file }, hr,
      ?_⟩
    simp only [wrapfs_page_mkwrite, hops, hm, if_false, Bool.true_eq_false,
      Option.some.injEq] at hr
    subst hr
    exact ⟨⟨rfl, rfl, rfl, rfl, rfl, rfl, rfl, rfl, rfl⟩, rfl, ⟨rfl, rfl, rfl, rfl⟩,
      fun h => h⟩
  · intro hm
    simp only [lower_ops_of, mapped_file] at hm
    simp only [wrapfs_page_mkwrite, hops, hm, if_false, if_true]

theorem fault_shim_private_copy_witness :
    (∃ r, wrapfs_fault (ex_map_env 512 true) ex_map_world 900 ex_vmf = some r ∧
      r.err = 512 ∧ r.vmf.vma = 50 ∧ r.world.vmas 50 = ex_map_world.vmas 50) ∧
    (∃ r, wrapfs_page_mkwrite (ex_map_env 512 true) ex_map_world 900 ex_vmf = some r ∧
      r.err = 512 ∧ r.vmf.vma = 50 ∧ r.world.vmas 50 = ex_map_world.vmas 50) ∧
    wrapfs_page_mkwrite (ex_map_env 512 false) ex_map_world 900 ex_vmf =
      some { err := 0, world := ex_map_world, vmf := ex_vmf } :=
  ⟨match (fault_shim_private_copy (ex_map_env 512 true) ex_map_world 900 ex_vmf
        (by decide)).1 with
    | ⟨r, _, h1, _, _, h4, h5⟩ => ⟨r, h1, h4.1, h4.2.2.2, h5 rfl⟩,
   match (fault_shim_private_copy (ex_map_env 512 true) ex_map_world 900 ex_vmf
        (by decide)).2.1 rfl with
    | ⟨r, _, h1, _, _, h4, h5⟩ => ⟨r, h1, h4.1, h4.2.2.2, h5 rfl⟩,
   (fault_shim_private_copy (ex_map_env 512 false) ex_map_world 900 ex_vmf
      (by decide)).2.2 rfl⟩

end Wrapfs
